import Mathlib

/-!
Verification of the `qrcode` Go package (Reed–Solomon coding over GF(256),
QR symbol construction, BCH format information, PNG rasterization).

Definitions mirror the Go source files `reedsolomon.go`, the main QR file,
and `writer.go`.  Machine integers are modelled as `Nat` (all values stay
below 256 where the Go code relies on byte range); fallible operations
return `Option`.
-/

set_option maxRecDepth 4000

namespace QRV

/-! ### Galois field tables — `reedsolomon.go`, `init` (lines 11–22)

The Go loop runs `val *= 2; if val >= 256 { val ^= 0x11D }` 255 times,
recording `expTable[i] = val` and `logTable[val] = i`.  `gfDouble` is one
doubling step of that loop. -/

def gfDouble (v : Nat) : Nat :=
  if 2 * v ≥ 256 then (2 * v) ^^^ 0x11D else 2 * v

/-- Store byte `b` at base-256 digit `pos` of `n` (the packed-array write
`a[pos] = b`). -/
def setByte (n pos b : Nat) : Nat :=
  n - (((n >>> (8 * pos)) &&& 255) <<< (8 * pos)) + (b <<< (8 * pos))

/-- The init loop (lines 11–22), with both 256-entry byte arrays packed as
base-256 digit strings: `n` iterations starting at index `i` with current
`val`, performing `expTable[i] = val; logTable[val] = i` then doubling. -/
def initTablesAux : Nat → Nat → Nat → Nat × Nat → Nat × Nat
  | 0, _, _, t => t
  | n + 1, i, val, t =>
    initTablesAux n (i + 1) (gfDouble val) (setByte t.1 i val, setByte t.2 val i)

/-- The packed `(expTable, logTable)` pair after the 255 loop iterations
(both arrays start zeroed; `val` starts at 1). -/
def tables : Nat × Nat := initTablesAux 255 0 1 (0, 0)

/-- `expTable` array read: entries `0..254` are written by the loop, entry
255 keeps Go's zero value.  (Go panics on an index above 255; no caller
reads one.) -/
def expTable (i : Nat) : Nat :=
  if i < 255 then (tables.1 >>> (8 * i)) &&& 255 else 0

/-- `logTable` array read: `logTable[val] = i` for each `val` produced by
the loop; the never-written entry 0 keeps Go's zero value.  (Go panics on
an index above 255; no caller reads one.) -/
def logTable (v : Nat) : Nat :=
  if v < 256 then (tables.2 >>> (8 * v)) &&& 255 else 0

/-! ### Field operations — `reedsolomon.go` lines 24–47 -/

def gfAdd (x y : Nat) : Nat := x ^^^ y

def gfMul (x y : Nat) : Nat :=
  if x = 0 ∨ y = 0 then 0
  else expTable ((logTable x + logTable y) % 255)

/-- `gfDiv` panics on `y = 0` in Go; modelled as `none`. -/
def gfDiv (x y : Nat) : Option Nat :=
  if y = 0 then none
  else if x = 0 then some 0
  else some (expTable ((logTable x + 255 - logTable y) % 255))

/-! ### Polynomial arithmetic over GF(256) — `reedsolomon.go` lines 49–106 -/

/-- `gfPolyMul` — `reedsolomon.go` lines 49–57: allocate `len p + len q - 1`
zeroes, then accumulate `res[i+j] ^= gfMul(p[i], q[j])` over the nested
loop. -/
def gfPolyMul (p q : List Nat) : List Nat :=
  (List.range p.length).foldl
    (fun res i =>
      (List.range q.length).foldl
        (fun res2 j =>
          res2.set (i + j) (res2.getD (i + j) 0 ^^^ gfMul (p.getD i 0) (q.getD j 0)))
        res)
    (List.replicate (p.length + q.length - 1) 0)

/-- `GenerateGeneratorPoly` — `reedsolomon.go` lines 60–66. -/
def GenerateGeneratorPoly (numECCodewords : Nat) : List Nat :=
  (List.range numECCodewords).foldl
    (fun gen i => gfPolyMul gen [1, expTable i]) [1]

/-- `CalculateECCodewords` — `reedsolomon.go` lines 69–106: long division of
`data ++ 0^numEC` by the generator, returning the last `numEC` positions. -/
def CalculateECCodewords (data : List Nat) (numECCodewords : Nat) : List Nat :=
  let generator := GenerateGeneratorPoly numECCodewords
  let remainder :=
    (List.range data.length).foldl
      (fun rem i =>
        let coef := rem.getD i 0
        if coef ≠ 0 then
          (List.range generator.length).foldl
            (fun rem2 j =>
              rem2.set (i + j) (rem2.getD (i + j) 0 ^^^ gfMul (generator.getD j 0) coef))
            rem
        else rem)
      (data ++ List.replicate numECCodewords 0)
  remainder.drop data.length

def gfPow (x : Nat) : Nat → Nat
  | 0 => 1
  | n + 1 => gfMul (gfPow x n) x

/-- Horner evaluation with an explicit starting accumulator (proof
infrastructure; `polyEval` is the `a = 0` case). -/
def polyEvalFrom (x a : Nat) (p : List Nat) : Nat :=
  p.foldl (fun acc c => gfMul acc x ^^^ c) a

/-- Modelled from the spec: evaluate a codeword polynomial (coefficients
listed highest degree first) at the field element `x`; the decoder computes
each syndrome this way. -/
def polyEval (p : List Nat) (x : Nat) : Nat := polyEvalFrom x 0 p

/-- Bound on list entries: every coefficient is a byte value. -/
def allLt (p : List Nat) : Prop := ∀ c ∈ p, c < 256

/-- Modelled from the spec: Reed–Solomon block decoding computes `ecLen`
syndromes by evaluating the received block at the roots `expTable i`,
`i < ecLen`; "if all syndromes are zero, the block is error-free, return
as-is" (its data part).  The spec's Berlekamp–Massey correction branch for
nonzero syndromes is outside every claim; it is modelled as failure
(`none`), standing for a correction attempt whose behaviour the claims
never exercise. -/
def rsDecode (block : List Nat) (ecLen : Nat) : Option (List Nat) :=
  if (List.range ecLen).all (fun i => polyEval block (expTable i) = 0) then
    some (block.take (block.length - ecLen))
  else
    none

/-- One inner-loop step of the polynomial division in `CalculateECCodewords`
(proof infrastructure naming the loop body of lines 90–102). -/
def divInnerStep (g : List Nat) (coef : Nat) (i : Nat) (rem2 : List Nat)
    (j : Nat) : List Nat :=
  rem2.set (i + j) (rem2.getD (i + j) 0 ^^^ gfMul (g.getD j 0) coef)

/-- One outer-loop step of the polynomial division in `CalculateECCodewords`
(proof infrastructure naming the loop body of lines 90–102). -/
def divStep (g : List Nat) (rem : List Nat) (i : Nat) : List Nat :=
  let coef := rem.getD i 0
  if coef ≠ 0 then
    (List.range g.length).foldl
      (fun rem2 j =>
        rem2.set (i + j) (rem2.getD (i + j) 0 ^^^ gfMul (g.getD j 0) coef))
      rem
  else rem

/-- One step of the outer loop of `gfPolyMul p [a, b]` (proof
infrastructure). -/
def pairStep (p : List Nat) (a b : Nat) (res : List Nat) (i : Nat) : List Nat :=
  (List.range ([a, b] : List Nat).length).foldl
    (fun res2 j =>
      res2.set (i + j)
        (res2.getD (i + j) 0 ^^^ gfMul (p.getD i 0) (([a, b] : List Nat).getD j 0)))
    res

/-! ### QR encoder — constants, capacity table, bit buffer (main file) -/

/-- Mode indicator for byte mode (line 11). -/
def ModeByte : Nat := 4

/-- ECC level constants (lines 17–22). -/
def LevelL : Nat := 1

def LevelM : Nat := 0

def LevelQ : Nat := 3

def LevelH : Nat := 2

/-- `VersionInfo` (lines 25–31). -/
structure VersionInfo where
  TotalCodewords : Nat
  ECCodewords : Nat
  Blocks : Nat
deriving DecidableEq

/-- `versionTable` (lines 35–61); a missing key yields Go's zero value.
Levels: L = 1, M = 0, Q = 3, H = 2. -/
def versionTable (ver level : Nat) : VersionInfo :=
  match ver, level with
  | 1, 1 => ⟨26, 7, 1⟩
  | 1, 0 => ⟨26, 10, 1⟩
  | 1, 3 => ⟨26, 13, 1⟩
  | 1, 2 => ⟨26, 17, 1⟩
  | 2, 1 => ⟨44, 10, 1⟩
  | 2, 0 => ⟨44, 16, 1⟩
  | 2, 3 => ⟨44, 22, 1⟩
  | 2, 2 => ⟨44, 28, 1⟩
  | 3, 1 => ⟨70, 15, 1⟩
  | 3, 0 => ⟨70, 26, 1⟩
  | 3, 3 => ⟨70, 36, 2⟩
  | 3, 2 => ⟨70, 44, 2⟩
  | 4, 1 => ⟨100, 20, 1⟩
  | 4, 0 => ⟨100, 36, 2⟩
  | 4, 3 => ⟨100, 52, 2⟩
  | 4, 2 => ⟨100, 64, 4⟩
  | _, _ => ⟨0, 0, 0⟩

/-- `QRCode` (lines 63–68); the module grid is a list of rows. -/
structure QRCode where
  Version : Nat
  Level : Nat
  Size : Nat
  Modules : List (List Bool)
deriving DecidableEq

/-- `BitBuffer.Put` (lines 479–483): append `length` bits of `num`, most
significant first. -/
def bbPut (bits : List Bool) (num length : Nat) : List Bool :=
  bits ++ (List.range length).map (fun i => ((num >>> (length - 1 - i)) &&& 1) == 1)

/-- Version selection loop of `NewQRCode` (lines 77–103): try versions 1–4,
skip entries with more than one block, pick the first whose data capacity
holds the header plus payload bits. -/
def findVersion (level dataLen : Nat) : Option (Nat × VersionInfo) :=
  [1, 2, 3, 4].findSome? (fun ver =>
    let info := versionTable ver level
    if 1 < info.Blocks then none
    else if 4 + 8 + dataLen * 8 ≤ (info.TotalCodewords - info.ECCodewords) * 8 then
      some (ver, info)
    else none)

/-- The pad byte cycle (line 130). -/
def padBytesList : List Nat := [0xEC, 0x11]

/-- The pad-byte loop (lines 131–135), fuel-indexed: while the buffer is
short of capacity, append the next pad byte and flip the index.  A fuel of
`cap` always suffices (each step adds 8 bits). -/
def padLoop : Nat → Nat → List Bool → Nat → List Bool
  | 0, _, bits, _ => bits
  | fuel + 1, padIdx, bits, cap =>
    if bits.length < cap then
      padLoop fuel ((padIdx + 1) % 2) (bbPut bits (padBytesList.getD padIdx 0) 8) cap
    else bits

/-- Terminator step (lines 115–122): up to 4 zero bits, truncated at
capacity. -/
def termStep (bits2 : List Bool) (cap : Nat) : List Bool :=
  if bits2.length < cap then
    bbPut bits2 0 (if cap < bits2.length + 4 then cap - bits2.length else 4)
  else bits2

/-- Byte-alignment step (lines 125–127): zero bits to the next byte
boundary. -/
def alignStep (bits3 : List Bool) : List Bool :=
  if bits3.length % 8 ≠ 0 then bbPut bits3 0 (8 - bits3.length % 8) else bits3

/-- Data encoding, terminator, byte alignment and padding of `NewQRCode`
(lines 106–135): mode indicator, 8-bit count, payload bytes, then the three
padding stages. -/
def buildDataBits (data : List Nat) (vInfo : VersionInfo) : List Bool :=
  let cap := (vInfo.TotalCodewords - vInfo.ECCodewords) * 8
  padLoop cap 0
    (alignStep
      (termStep
        (data.foldl (fun bs b => bbPut bs b 8)
          (bbPut (bbPut [] ModeByte 4) data.length 8))
        cap))
    cap

/-- Bit-to-codeword packing of `NewQRCode` (lines 138–149): one byte per
8-bit chunk, MSB first, out-of-range bits read as 0.  The buffer length
(`len(bits)` in Go, constant-time there) is taken as a parameter. -/
def byteFromBits (bits : List Bool) (n i : Nat) : Nat :=
  (List.range 8).foldl
    (fun val j =>
      if i + j < n ∧ bits.getD (i + j) false then val ||| (1 <<< (7 - j))
      else val)
    0

def bitsToCodewordsN (bits : List Bool) (n : Nat) : List Nat :=
  (List.range ((n + 7) / 8)).map (fun k => byteFromBits bits n (8 * k))

def bitsToCodewords (bits : List Bool) : List Nat :=
  bitsToCodewordsN bits bits.length

/-! ### QR encoder — matrix construction (main file lines 155–451) -/

/-- Read module `(r, c)`; out-of-range reads default to light (never hit by
the source's in-bounds accesses). -/
def gridGet (g : List (List Bool)) (r c : Nat) : Bool :=
  (g.getD r []).getD c false

def gridSet (g : List (List Bool)) (r c : Nat) (b : Bool) : List (List Bool) :=
  g.set r ((g.getD r []).set c b)

def emptyGrid (size : Nat) : List (List Bool) :=
  List.replicate size (List.replicate size false)

/-- `addFinderPattern` (lines 173–187) acting on the pair
(modules, isFunction). -/
def addFinderPattern (size : Nat) (st : List (List Bool) × List (List Bool))
    (r c : Nat) : List (List Bool) × List (List Bool) :=
  (List.range 7).foldl
    (fun st i =>
      (List.range 7).foldl
        (fun st j =>
          if size ≤ r + i ∨ size ≤ c + j then st
          else
            let m := i = 0 ∨ i = 6 ∨ j = 0 ∨ j = 6 ∨ (2 ≤ i ∧ i ≤ 4 ∧ 2 ≤ j ∧ j ≤ 4)
            (gridSet st.1 (r + i) (c + j) (decide m), gridSet st.2 (r + i) (c + j) true))
        st)
    st

/-- Separators (lines 193–226).  Go's `>= 0` conjuncts are vacuous over ℕ
and omitted. -/
def addSeparators (size : Nat) (st : List (List Bool) × List (List Bool)) :
    List (List Bool) × List (List Bool) :=
  let st := (List.range 8).foldl
    (fun st i =>
      let st := if i < size ∧ 7 < size then
        (gridSet st.1 i 7 false, gridSet st.2 i 7 true) else st
      if i < size ∧ 7 < size then
        (gridSet st.1 7 i false, gridSet st.2 7 i true) else st)
    st
  let st := (List.range 8).foldl
    (fun st i =>
      let st := if i < size then
        (gridSet st.1 i (size - 8) false, gridSet st.2 i (size - 8) true) else st
      if 7 < size then
        (gridSet st.1 7 (size - 1 - i) false, gridSet st.2 7 (size - 1 - i) true) else st)
    st
  (List.range 8).foldl
    (fun st i =>
      let st := if 7 < size then
        (gridSet st.1 (size - 1 - i) 7 false, gridSet st.2 (size - 1 - i) 7 true) else st
      if i < size then
        (gridSet st.1 (size - 8) i false, gridSet st.2 (size - 8) i true) else st)
    st

/-- Alignment pattern centre coordinates (lines 237–245). -/
def alignmentLocs (v : Nat) : List Nat :=
  match v with
  | 2 => [6, 18]
  | 3 => [6, 22]
  | 4 => [6, 26]
  | _ => []

/-- Alignment patterns (lines 228–271); the Go loop index `i ∈ [-2, 2]` is
shifted to `ii ∈ [0, 4]` (`rr = cy + ii - 2`, always ≥ 4 here). -/
def addAlignment (size : Nat) (st : List (List Bool) × List (List Bool))
    (v : Nat) : List (List Bool) × List (List Bool) :=
  if 2 ≤ v then
    (alignmentLocs v).foldl
      (fun st cx =>
        (alignmentLocs v).foldl
          (fun st cy =>
            if (cx < 9 ∧ cy < 9) ∨ (cx < 9 ∧ size - 9 < cy) ∨
                (size - 9 < cx ∧ cy < 9) then st
            else
              (List.range 5).foldl
                (fun st ii =>
                  (List.range 5).foldl
                    (fun st jj =>
                      let rr := cy + ii - 2
                      let cc := cx + jj - 2
                      if gridGet st.2 rr cc then st
                      else
                        let m := ii = 0 ∨ ii = 4 ∨ jj = 0 ∨ jj = 4 ∨ (ii = 2 ∧ jj = 2)
                        (gridSet st.1 rr cc (decide m), gridSet st.2 rr cc true))
                    st)
                st)
          st)
      st
  else st

/-- Timing patterns (lines 273–283): `i` runs from 8 to `size - 9`. -/
def addTiming (size : Nat) (st : List (List Bool) × List (List Bool)) :
    List (List Bool) × List (List Bool) :=
  (List.range (size - 8 - 8)).foldl
    (fun st k =>
      let i := 8 + k
      let st := if ¬ gridGet st.2 6 i then
        (gridSet st.1 6 i (i % 2 == 0), gridSet st.2 6 i true) else st
      if ¬ gridGet st.2 i 6 then
        (gridSet st.1 i 6 (i % 2 == 0), gridSet st.2 i 6 true) else st)
    st

/-- Format information area reservation (lines 289–310): marks cells as
function patterns without assigning module values. -/
def reserveFormatAreas (size : Nat) (st : List (List Bool) × List (List Bool)) :
    List (List Bool) × List (List Bool) :=
  let st := (List.range 9).foldl
    (fun st i =>
      let st := if ¬ gridGet st.2 8 i then (st.1, gridSet st.2 8 i true) else st
      if ¬ gridGet st.2 i 8 then (st.1, gridSet st.2 i 8 true) else st)
    st
  let st := (List.range 8).foldl
    (fun st i =>
      if ¬ gridGet st.2 8 (size - 1 - i) then
        (st.1, gridSet st.2 8 (size - 1 - i) true) else st)
    st
  (List.range 7).foldl
    (fun st i =>
      if ¬ gridGet st.2 (size - 1 - i) 8 then
        (st.1, gridSet st.2 (size - 1 - i) 8 true) else st)
    st

/-- All function patterns of lines 172–310 in source order: finders,
separators, alignment, timing, dark module, format-area reservation. -/
def buildFunctionPatterns (size v : Nat) :
    List (List Bool) × List (List Bool) :=
  let st := (emptyGrid size, emptyGrid size)
  let st := addFinderPattern size st 0 0
  let st := addFinderPattern size st 0 (size - 7)
  let st := addFinderPattern size st (size - 7) 0
  let st := addSeparators size st
  let st := addAlignment size st v
  let st := addTiming size st
  let st := (gridSet st.1 (size - 8) 8 true, gridSet st.2 (size - 8) 8 true)
  reserveFormatAreas size st

/-- The column sequence of the zig-zag walk (lines 328–331), fuel-indexed:
`col` starts at `size - 1`, steps down by 2, and is nudged from 6 to 5 to
skip the timing column; `size` is ample fuel. -/
def zigzagColsAux : Nat → Nat → List Nat
  | 0, _ => []
  | fuel + 1, col =>
    if col = 0 then []
    else
      let c := if col = 6 then col - 1 else col
      c :: zigzagColsAux fuel (c - 2)

def zigzagCols (size : Nat) : List Nat := zigzagColsAux size (size - 1)

/-- Mask pattern 0 (lines 317–319, 346–350): dark toggle when
`(row + col) % 2 == 0`. -/
def maskBit0 (r c : Nat) : Bool := (r + c) % 2 == 0

/-- Message bit `k`, MSB first within each codeword (lines 322–326). -/
def messageBit (message : List Nat) (k : Nat) : Bool :=
  ((message.getD (k / 8) 0 >>> (7 - k % 8)) &&& 1) == 1

/-- Zig-zag data placement (lines 312–355).  The Go inner loop
`for c := col; c > col-2; c--` always visits exactly `col` and `col - 1`
(every visited `col` is ≥ 1), modelled as the two-element list. -/
def placeData (size : Nat) (modules isFunction : List (List Bool))
    (message : List Nat) : List (List Bool) :=
  let totalBits := message.length * 8
  ((zigzagCols size).foldl
    (fun (acc : List (List Bool) × Nat) col =>
      (List.range size).foldl
        (fun acc rowIter =>
          let r := if ((col + 1) / 2) % 2 = 0 then size - 1 - rowIter else rowIter
          [col, col - 1].foldl
            (fun (acc : List (List Bool) × Nat) c =>
              if ¬ gridGet isFunction r c then
                let bit := if acc.2 < totalBits then messageBit message acc.2 else false
                let idx := if acc.2 < totalBits then acc.2 + 1 else acc.2
                let bit := if maskBit0 r c then !bit else bit
                (gridSet acc.1 r c bit, idx)
              else acc)
            acc)
        acc)
    (modules, 0)).1

/-- `ecBits` switch (lines 364–374); unknown levels keep 0. -/
def ecBitsOf (level : Nat) : Nat :=
  match level with
  | 1 => 1
  | 0 => 0
  | 3 => 3
  | 2 => 2
  | _ => 0

/-- Position of format bit `i` (`i = 0` is the LSB) in the first copy
(lines 402–437). -/
def formatPos (i : Nat) : Nat × Nat :=
  match i with
  | 0 => (0, 8)
  | 1 => (1, 8)
  | 2 => (2, 8)
  | 3 => (3, 8)
  | 4 => (4, 8)
  | 5 => (5, 8)
  | 6 => (7, 8)
  | 7 => (8, 8)
  | 8 => (8, 7)
  | 9 => (8, 5)
  | 10 => (8, 4)
  | 11 => (8, 3)
  | 12 => (8, 2)
  | 13 => (8, 1)
  | _ => (8, 0)

/-- Format information placement, both copies (lines 398–448).  The second
copy places bits 8–14 at rows `size-8 .. size-2` of column 8 (line 446). -/
def placeFormat (size : Nat) (modules : List (List Bool)) (formatPoly : Nat) :
    List (List Bool) :=
  (List.range 15).foldl
    (fun m i =>
      let bit := ((formatPoly >>> i) &&& 1) == 1
      let m := gridSet m (formatPos i).1 (formatPos i).2 bit
      if i < 8 then gridSet m 8 (size - 1 - i) bit
      else gridSet m (size - 8 + (i - 8)) 8 bit)
    modules

/-- `calculateBCHFormat` (lines 454–468). -/
def calculateBCHFormat (data : Nat) : Nat :=
  let d0 := data <<< 10
  let g := 0x537
  let d := [4, 3, 2, 1, 0].foldl
    (fun d i => if (d >>> (i + 10)) &&& 1 = 1 then d ^^^ (g <<< i) else d) d0
  ((data <<< 10) ||| d) ^^^ 0x5412

/-- GF(2) remainder of a 15-bit word under division by the BCH generator
0x537: the independent validity checker used to state claim C6. -/
def bchRem15 (w : Nat) : Nat :=
  [4, 3, 2, 1, 0].foldl
    (fun d i => if (d >>> (i + 10)) &&& 1 = 1 then d ^^^ (0x537 <<< i) else d) w

/-- Systematic Reed–Solomon message assembly (lines 151–153):
`append(dataCodewords, ecCodewords...)`. -/
def assembleMessage (dataCodewords : List Nat) (ecLen : Nat) : List Nat :=
  dataCodewords ++ CalculateECCodewords dataCodewords ecLen

/-- Matrix construction from the final message (lines 155–448): function
patterns, zig-zag data placement under mask 0, format information. -/
def buildModules (size v level : Nat) (finalMessage : List Nat)
    (st : List (List Bool) × List (List Bool)) : List (List Bool) :=
  placeFormat size (placeData size st.1 st.2 finalMessage)
    (calculateBCHFormat ((ecBitsOf level <<< 3) ||| 0))

/-- The symbol built for version `v` (lines 105–451). -/
def buildSymbol (data : List Nat) (level v : Nat) (vInfo : VersionInfo) :
    QRCode :=
  let size := 21 + 4 * (v - 1)
  { Version := v, Level := level, Size := size,
    Modules := buildModules size v level
      (assembleMessage (bitsToCodewords (buildDataBits data vInfo))
        vInfo.ECCodewords)
      (buildFunctionPatterns size v) }

/-- `NewQRCode` (lines 72–452).  Content is its byte sequence; the Go
`error` return is modelled as `none`. -/
def NewQRCode (data : List Nat) (level : Nat) : Option QRCode :=
  match findVersion level data.length with
  | none => none
  | some (v, vInfo) => some (buildSymbol data level v vInfo)

/-! ### Decoder — modelled from the spec.

The repository's `Decode` (called by its tests) is not among the provided
source files; the definitions below are modelled from spec §4.6 and §4.4. -/

/-- Standard offsets of the second format-info copy: bits 0–7 left of the
top-right finder at `(8, size-1-i)`, bits 8–14 below the bottom-left finder
at rows `size-7 .. size-1` of column 8.  Modelled from the spec ("written
twice at the standard offsets"). -/
def formatPosCopy2 (size i : Nat) : Nat × Nat :=
  if i < 8 then (8, size - 1 - i) else (size - 7 + (i - 8), 8)

def readFormatWord (m : List (List Bool)) (pos : Nat → Nat × Nat) : Nat :=
  (List.range 15).foldl
    (fun w i => if gridGet m (pos i).1 (pos i).2 then w ||| (1 <<< i) else w) 0

/-- Hamming distance between two 15-bit words. -/
def hamming15 (a b : Nat) : Nat :=
  (List.range 15).foldl
    (fun acc i => if ((a ^^^ b) >>> i) &&& 1 = 1 then acc + 1 else acc) 0

/-- Modelled from the spec: the (15,5) BCH code "can correct up to 3 bit
errors"; decode a read word by distance ≤ 3 to one of the 32 format
codewords. -/
def bchCorrectFormat (w : Nat) : Option Nat :=
  (List.range 32).find? (fun d => hamming15 (calculateBCHFormat d) w ≤ 3)

/-- Modelled from the spec §4.6: read both format copies, BCH-correct each,
fail if they disagree. -/
def decodeFormat (m : List (List Bool)) (size : Nat) : Option Nat :=
  let w1 := readFormatWord m formatPos
  let w2 := readFormatWord m (formatPosCopy2 size)
  match bchCorrectFormat w1, bchCorrectFormat w2 with
  | some d1, some d2 => if d1 = d2 then some d1 else none
  | _, _ => none

/-- Zig-zag read-back of the data bits over non-function cells, with the
mask removed (mask 0; this encoder commits mask 0 only, and `Decode`
rejects any other recovered mask id — the spec does not enumerate the
other seven mask formulas). -/
def readDataBits (size : Nat) (isFunction m : List (List Bool)) : List Bool :=
  ((zigzagCols size).foldl
    (fun (acc : List Bool) col =>
      (List.range size).foldl
        (fun acc rowIter =>
          let r := if ((col + 1) / 2) % 2 = 0 then size - 1 - rowIter else rowIter
          [col, col - 1].foldl
            (fun acc c =>
              if ¬ gridGet isFunction r c then
                Bool.xor (gridGet m r c) (maskBit0 r c) :: acc
              else acc)
            acc)
        acc)
    []).reverse

/-- Value of `len` bits MSB-first starting at offset `off`. -/
def bitsVal (bits : List Bool) (off len : Nat) : Nat :=
  (List.range len).foldl
    (fun v j => 2 * v + (if bits.getD (off + j) false then 1 else 0)) 0

/-- Modelled from the spec §4.4 decode: 4-bit mode indicator (byte mode is
the only mode this encoder emits), 8-bit count (versions 1–9), then
`count` bytes. -/
def parseBits (bits : List Bool) : Option (List Nat) :=
  if bitsVal bits 0 4 ≠ ModeByte then none
  else
    let count := bitsVal bits 4 8
    if 12 + count * 8 ≤ bits.length then
      some ((List.range count).map (fun k => bitsVal bits (12 + 8 * k) 8))
    else none

def parseByteSegment (cw : List Nat) : Option (List Nat) :=
  parseBits (cw.foldl (fun bs b => bbPut bs b 8) [])

/-- Parse step applied to the Reed–Solomon result (spec §4.6: on RS
success, parse the recovered data codewords; on RS failure, fail). -/
def rsParse (r : Option (List Nat)) : Option (List Nat) :=
  match r with
  | none => none
  | some dataCw => parseByteSegment dataCw

/-- Modelled from the spec §4.6 (continued): zig-zag read-back with the
mask removed, codeword packing, single-block Reed–Solomon check, byte-mode
parse. -/
def decodeCodewords (m : List (List Bool)) (size : Nat) (vInfo : VersionInfo)
    (isF : List (List Bool)) : Option (List Nat) :=
  let bits := readDataBits size isF m
  let codewords := bitsToCodewords (bits.take (vInfo.TotalCodewords * 8))
  rsParse (rsDecode codewords vInfo.ECCodewords)

/-- Modelled from the spec §4.6 (continued): extract level and mask id from
the recovered 5 format bits, look up the capacity entry, recompute the
function-pattern membership with the encoder's own rules. -/
def decodeWithFormat (m : List (List Bool)) (size fd : Nat) :
    Option (List Nat) :=
  let level := fd >>> 3
  let mask := fd &&& 7
  if mask ≠ 0 then none
  else
    let v := (size - 21) / 4 + 1
    let vInfo := versionTable v level
    if vInfo.TotalCodewords = 0 then none
    else decodeCodewords m size vInfo (buildFunctionPatterns size v).2

/-- Dispatch on the recovered format information (fail when both copies
were uncorrectable or disagreed). -/
def decodeDispatch (m : List (List Bool)) (size : Nat) (fd? : Option Nat) :
    Option (List Nat) :=
  match fd? with
  | none => none
  | some fd => decodeWithFormat m size fd

/-- Modelled from the spec §4.6: symbol decoding from a sampled module
grid.  Version derived from the size; format info from the two
BCH-corrected copies; then `decodeWithFormat`. -/
def Decode (m : List (List Bool)) : Option (List Nat) :=
  let size := m.length
  if size < 21 ∨ (size - 21) % 4 ≠ 0 then none
  else decodeDispatch m size (decodeFormat m size)

/-- The 40 content bytes of the test `TestQRVersion2`:
the ASCII string "This is a longer string for V2 QR Code!!". -/
def contentC3 : List Nat :=
  [84, 104, 105, 115, 32, 105, 115, 32, 97, 32, 108, 111, 110, 103, 101,
   114, 32, 115, 116, 114, 105, 110, 103, 32, 102, 111, 114, 32, 86, 50,
   32, 81, 82, 32, 67, 111, 100, 101, 33, 33]

/-- Minimality of the chosen version (proof-side predicate for claim C2):
the (version, level) entry has a single block and its data capacity holds
the 12 header bits plus the payload. -/
def fitOK (dataLen level ver : Nat) : Prop :=
  ¬ 1 < (versionTable ver level).Blocks ∧
  4 + 8 + dataLen * 8 ≤
    ((versionTable ver level).TotalCodewords -
      (versionTable ver level).ECCodewords) * 8

instance (dataLen level ver : Nat) : Decidable (fitOK dataLen level ver) := by
  unfold fitOK
  infer_instance

/-! ### Concrete data for the version-3 round trip (claim C3) -/

/-- The symbol grid produced for `contentC3` at level L (version 3,
size 29); fixed by `NewQRCode_contentC3`. -/
def gridC3 : List (List Bool) :=
[[true, true, true, true, true, true, true, false, false, true, false, false, true, false, true, true, false, false, true, true, false, false, true, true, true, true, true, true, true],
[true, false, false, false, false, false, true, false, false, false, true, true, true, true, true, true, true, false, true, true, false, false, true, false, false, false, false, false, true],
[true, false, true, true, true, false, true, false, true, true, true, false, true, false, true, true, false, false, false, true, false, false, true, false, true, true, true, false, true],
[true, false, true, true, true, false, true, false, false, true, true, true, false, false, true, false, false, false, false, false, false, false, true, false, true, true, true, false, true],
[true, false, true, true, true, false, true, false, false, false, true, false, false, false, true, true, false, false, true, true, false, false, true, false, true, true, true, false, true],
[true, false, false, false, false, false, true, false, false, true, false, false, false, true, true, true, true, true, false, true, true, false, true, false, false, false, false, false, true],
[true, true, true, true, true, true, true, false, true, false, true, false, true, false, true, false, true, false, true, false, true, false, true, true, true, true, true, true, true],
[false, false, false, false, false, false, false, false, true, true, true, false, true, true, true, false, false, true, false, true, false, false, false, false, false, false, false, false, false],
[true, true, true, false, true, true, true, true, true, false, true, true, false, true, true, false, true, true, false, true, true, true, true, false, false, false, true, false, false],
[true, false, true, false, false, false, false, true, true, false, true, true, false, true, false, true, true, true, false, false, true, true, true, false, false, true, false, false, true],
[true, false, false, false, false, true, true, false, true, true, false, false, false, false, true, false, true, true, false, false, true, true, false, true, false, true, false, true, true],
[true, false, true, true, false, false, false, false, true, false, false, true, false, true, true, true, false, true, false, false, false, true, true, false, true, true, false, false, false],
[true, true, true, false, true, true, true, true, true, false, false, false, true, true, true, false, true, true, false, false, false, true, true, false, false, false, false, false, false],
[false, false, true, false, true, true, false, false, false, true, false, true, true, true, false, false, false, false, false, false, true, true, true, false, false, true, false, true, true],
[false, true, false, true, false, false, true, false, false, false, false, true, true, false, true, false, true, true, false, false, true, true, true, false, true, false, true, true, true],
[true, false, true, true, false, false, false, true, false, false, true, false, true, true, true, false, false, true, true, true, true, false, true, false, true, false, false, true, false],
[false, false, true, false, false, true, true, true, true, false, true, true, false, false, true, false, false, true, false, false, false, true, true, false, false, false, false, false, false],
[false, false, false, true, false, true, false, false, false, true, false, true, false, false, false, true, true, true, true, false, true, true, true, false, false, true, true, true, true],
[true, false, false, false, true, true, true, false, false, true, true, false, false, true, false, false, false, true, true, false, false, true, true, false, true, true, true, true, true],
[false, true, true, true, true, true, false, false, true, true, false, true, false, false, false, true, false, true, false, false, false, false, false, true, false, false, false, true, false],
[true, false, true, false, false, false, true, true, true, true, true, false, true, false, false, false, false, true, true, false, true, true, true, true, true, true, false, true, true],
[false, false, false, false, false, false, false, false, true, false, true, true, true, true, false, true, true, true, false, false, true, false, false, false, true, true, false, false, false],
[true, true, true, true, true, true, true, false, true, true, false, true, true, false, true, false, true, false, true, true, true, false, true, false, true, true, false, true, true],
[true, false, false, false, false, false, true, false, true, false, true, false, true, true, true, true, false, true, false, false, true, false, false, false, true, true, false, true, false],
[true, false, true, true, true, false, true, false, false, false, false, true, false, false, true, false, true, false, false, false, true, true, true, true, true, false, false, false, false],
[true, false, true, true, true, false, true, false, true, true, true, true, false, false, true, false, false, true, true, true, false, false, false, true, true, true, false, true, true],
[true, false, true, true, true, false, true, false, true, true, true, false, false, true, false, false, true, true, false, false, true, true, false, false, true, false, true, false, true],
[true, false, false, false, false, false, true, false, true, false, true, true, false, false, false, false, false, true, false, true, true, true, false, false, false, false, false, true, false],
[true, true, true, true, true, true, true, false, false, false, false, false, true, false, false, false, false, true, true, false, true, false, false, false, true, false, false, true, true]]

/-- The function-pattern membership grid for size 29, version 3; fixed by
`buildFunctionPatterns_29`. -/
def isfC3 : List (List Bool) :=
[[true, true, true, true, true, true, true, true, true, false, false, false, false, false, false, false, false, false, false, false, false, true, true, true, true, true, true, true, true],
[true, true, true, true, true, true, true, true, true, false, false, false, false, false, false, false, false, false, false, false, false, true, true, true, true, true, true, true, true],
[true, true, true, true, true, true, true, true, true, false, false, false, false, false, false, false, false, false, false, false, false, true, true, true, true, true, true, true, true],
[true, true, true, true, true, true, true, true, true, false, false, false, false, false, false, false, false, false, false, false, false, true, true, true, true, true, true, true, true],
[true, true, true, true, true, true, true, true, true, false, false, false, false, false, false, false, false, false, false, false, false, true, true, true, true, true, true, true, true],
[true, true, true, true, true, true, true, true, true, false, false, false, false, false, false, false, false, false, false, false, false, true, true, true, true, true, true, true, true],
[true, true, true, true, true, true, true, true, true, true, true, true, true, true, true, true, true, true, true, true, true, true, true, true, true, true, true, true, true],
[true, true, true, true, true, true, true, true, true, false, false, false, false, false, false, false, false, false, false, false, false, true, true, true, true, true, true, true, true],
[true, true, true, true, true, true, true, true, true, false, false, false, false, false, false, false, false, false, false, false, false, true, true, true, true, true, true, true, true],
[false, false, false, false, false, false, true, false, false, false, false, false, false, false, false, false, false, false, false, false, false, false, false, false, false, false, false, false, false],
[false, false, false, false, false, false, true, false, false, false, false, false, false, false, false, false, false, false, false, false, false, false, false, false, false, false, false, false, false],
[false, false, false, false, false, false, true, false, false, false, false, false, false, false, false, false, false, false, false, false, false, false, false, false, false, false, false, false, false],
[false, false, false, false, false, false, true, false, false, false, false, false, false, false, false, false, false, false, false, false, false, false, false, false, false, false, false, false, false],
[false, false, false, false, false, false, true, false, false, false, false, false, false, false, false, false, false, false, false, false, false, false, false, false, false, false, false, false, false],
[false, false, false, false, false, false, true, false, false, false, false, false, false, false, false, false, false, false, false, false, false, false, false, false, false, false, false, false, false],
[false, false, false, false, false, false, true, false, false, false, false, false, false, false, false, false, false, false, false, false, false, false, false, false, false, false, false, false, false],
[false, false, false, false, false, false, true, false, false, false, false, false, false, false, false, false, false, false, false, false, false, false, false, false, false, false, false, false, false],
[false, false, false, false, false, false, true, false, false, false, false, false, false, false, false, false, false, false, false, false, false, false, false, false, false, false, false, false, false],
[false, false, false, false, false, false, true, false, false, false, false, false, false, false, false, false, false, false, false, false, false, false, false, false, false, false, false, false, false],
[false, false, false, false, false, false, true, false, false, false, false, false, false, false, false, false, false, false, false, false, false, false, false, false, false, false, false, false, false],
[false, false, false, false, false, false, true, false, false, false, false, false, false, false, false, false, false, false, false, false, true, true, true, true, true, false, false, false, false],
[true, true, true, true, true, true, true, true, true, false, false, false, false, false, false, false, false, false, false, false, true, true, true, true, true, false, false, false, false],
[true, true, true, true, true, true, true, true, true, false, false, false, false, false, false, false, false, false, false, false, true, true, true, true, true, false, false, false, false],
[true, true, true, true, true, true, true, true, true, false, false, false, false, false, false, false, false, false, false, false, true, true, true, true, true, false, false, false, false],
[true, true, true, true, true, true, true, true, true, false, false, false, false, false, false, false, false, false, false, false, true, true, true, true, true, false, false, false, false],
[true, true, true, true, true, true, true, true, true, false, false, false, false, false, false, false, false, false, false, false, false, false, false, false, false, false, false, false, false],
[true, true, true, true, true, true, true, true, true, false, false, false, false, false, false, false, false, false, false, false, false, false, false, false, false, false, false, false, false],
[true, true, true, true, true, true, true, true, true, false, false, false, false, false, false, false, false, false, false, false, false, false, false, false, false, false, false, false, false],
[true, true, true, true, true, true, true, true, true, false, false, false, false, false, false, false, false, false, false, false, false, false, false, false, false, false, false, false, false]]

/-- The 567 data-region bits read back from `gridC3`; fixed by
`readDataBits_gridC3`. -/
def bitsC3 : List Bool :=
[false, true, false, false, false, false, true, false, true, false, false, false, false, true, false, true, false, true, false, false, false, true, true, false, true, false, false, false, false, true, true, false, true, false, false, true, false, true, true, true, false, false, true, true, false, false, true, false, false, false, false, false, false, true, true, false, true, false, false, true, false, true, true, true, false, false, true, true, false, false, true, false, false, false, false, false, false, true, true, false, false, false, false, true, false, false, true, false, false, false, false, false, false, true, true, false, true, true, false, false, false, true, true, false, true, true, true, true, false, true, true, false, true, true, true, false, false, true, true, false, false, true, true, true, false, true, true, false, false, true, false, true, false, true, true, true, false, false, true, false, false, false, true, false, false, false, false, false, false, true, true, true, false, false, true, true, false, true, true, true, false, true, false, false, false, true, true, true, false, false, true, false, false, true, true, false, true, false, false, true, false, true, true, false, true, true, true, false, false, true, true, false, false, true, true, true, false, false, true, false, false, false, false, false, false, true, true, false, false, true, true, false, false, true, true, false, true, true, true, true, false, true, true, true, false, false, true, false, false, false, true, false, false, false, false, false, false, true, false, true, false, true, true, false, false, false, true, true, false, false, true, false, false, false, true, false, false, false, false, false, false, true, false, true, false, false, false, true, false, true, false, true, false, false, true, false, false, false, true, false, false, false, false, false, false, true, false, false, false, false, true, true, false, true, true, false, true, true, true, true, false, true, true, false, false, true, false, false, false, true, true, false, false, true, false, true, false, false, true, false, false, false, false, true, false, false, true, false, false, false, false, true, false, false, false, false, true, true, true, false, true, true, false, false, false, false, false, true, false, false, false, true, true, true, true, false, true, true, false, false, false, false, false, true, false, false, false, true, true, true, true, false, true, true, false, false, false, false, false, true, false, false, false, true, true, true, true, false, true, true, false, false, false, false, false, true, false, false, false, true, true, true, true, false, true, true, false, false, false, false, false, true, false, false, false, true, true, true, true, false, true, true, false, false, false, false, false, true, false, false, false, true, true, true, true, false, true, true, false, false, false, true, false, true, true, false, false, false, false, false, true, false, false, false, true, true, true, true, true, true, true, true, false, true, false, false, true, true, true, true, false, false, true, true, true, true, false, false, true, false, true, false, false, true, false, false, true, false, true, true, true, false, false, true, false, true, false, true, true, true, false, true, false, false, true, false, true, true, false, true, true, false, false, true, false, false, true, false, true, false, false, false, true, false, true, false, false, false, false, false, true, true, true, true, true, false, false, false, true, false, true, true, true, true, true, false, false, true, true, true, false, true, false, true, true, true, true, false, true, true, false, false, false, false, false, false, false]

/-- The 70 codewords recovered from `gridC3` (55 data + 15 EC); fixed by
`bitsToCodewords_bitsC3`. -/
def cwC3 : List Nat :=
[66, 133, 70, 134, 151, 50, 6, 151, 50, 6, 18, 6, 198, 246, 230, 118, 87, 34, 7, 55, 71, 38, 150, 230, 114, 6, 102, 247, 34, 5, 99, 34, 5, 21, 34, 4, 54, 246, 70, 82, 18, 16, 236, 17, 236, 17, 236, 17, 236, 17, 236, 17, 236, 17, 236, 88, 35, 253, 60, 242, 146, 229, 116, 182, 74, 40, 62, 47, 157, 123]

/-- The 55 data codewords of `cwC3`. -/
def dataC3 : List Nat :=
[66, 133, 70, 134, 151, 50, 6, 151, 50, 6, 18, 6, 198, 246, 230, 118, 87, 34, 7, 55, 71, 38, 150, 230, 114, 6, 102, 247, 34, 5, 99, 34, 5, 21, 34, 4, 54, 246, 70, 82, 18, 16, 236, 17, 236, 17, 236, 17, 236, 17, 236, 17, 236, 17, 236]

/-- The symbol produced for `contentC3` at level L. -/
def qrC3 : QRCode :=
  { Version := 3, Level := 1, Size := 29, Modules := gridC3 }

/-- The 440-bit padded data stream built for `contentC3` at version 3-L;
fixed by `buildDataBits_contentC3`. -/
def bdBitsC3 : List Bool :=
[false, true, false, false, false, false, true, false, true, false, false, false, false, true, false, true, false, true, false, false, false, true, true, false, true, false, false, false, false, true, true, false, true, false, false, true, false, true, true, true, false, false, true, true, false, false, true, false, false, false, false, false, false, true, true, false, true, false, false, true, false, true, true, true, false, false, true, true, false, false, true, false, false, false, false, false, false, true, true, false, false, false, false, true, false, false, true, false, false, false, false, false, false, true, true, false, true, true, false, false, false, true, true, false, true, true, true, true, false, true, true, false, true, true, true, false, false, true, true, false, false, true, true, true, false, true, true, false, false, true, false, true, false, true, true, true, false, false, true, false, false, false, true, false, false, false, false, false, false, true, true, true, false, false, true, true, false, true, true, true, false, true, false, false, false, true, true, true, false, false, true, false, false, true, true, false, true, false, false, true, false, true, true, false, true, true, true, false, false, true, true, false, false, true, true, true, false, false, true, false, false, false, false, false, false, true, true, false, false, true, true, false, false, true, true, false, true, true, true, true, false, true, true, true, false, false, true, false, false, false, true, false, false, false, false, false, false, true, false, true, false, true, true, false, false, false, true, true, false, false, true, false, false, false, true, false, false, false, false, false, false, true, false, true, false, false, false, true, false, true, false, true, false, false, true, false, false, false, true, false, false, false, false, false, false, true, false, false, false, false, true, true, false, true, true, false, true, true, true, true, false, true, true, false, false, true, false, false, false, true, true, false, false, true, false, true, false, false, true, false, false, false, false, true, false, false, true, false, false, false, false, true, false, false, false, false, true, true, true, false, true, true, false, false, false, false, false, true, false, false, false, true, true, true, true, false, true, true, false, false, false, false, false, true, false, false, false, true, true, true, true, false, true, true, false, false, false, false, false, true, false, false, false, true, true, true, true, false, true, true, false, false, false, false, false, true, false, false, false, true, true, true, true, false, true, true, false, false, false, false, false, true, false, false, false, true, true, true, true, false, true, true, false, false, false, false, false, true, false, false, false, true, true, true, true, false, true, true, false, false]

/-- The 15 Reed-Solomon check codewords of `dataC3`; fixed by
`CalculateEC_dataC3`. -/
def ecC3 : List Nat :=
[88, 35, 253, 60, 242, 146, 229, 116, 182, 74, 40, 62, 47, 157, 123]

/-- The modules grid after the function patterns of version 3 (before
data placement); fixed by `buildFunctionPatterns_29`. -/
def fpModC3 : List (List Bool) :=
[[true, true, true, true, true, true, true, false, false, false, false, false, false, false, false, false, false, false, false, false, false, false, true, true, true, true, true, true, true],
[true, false, false, false, false, false, true, false, false, false, false, false, false, false, false, false, false, false, false, false, false, false, true, false, false, false, false, false, true],
[true, false, true, true, true, false, true, false, false, false, false, false, false, false, false, false, false, false, false, false, false, false, true, false, true, true, true, false, true],
[true, false, true, true, true, false, true, false, false, false, false, false, false, false, false, false, false, false, false, false, false, false, true, false, true, true, true, false, true],
[true, false, true, true, true, false, true, false, false, false, false, false, false, false, false, false, false, false, false, false, false, false, true, false, true, true, true, false, true],
[true, false, false, false, false, false, true, false, false, false, false, false, false, false, false, false, false, false, false, false, false, false, true, false, false, false, false, false, true],
[true, true, true, true, true, true, true, false, true, false, true, false, true, false, true, false, true, false, true, false, true, false, true, true, true, true, true, true, true],
[false, false, false, false, false, false, false, false, false, false, false, false, false, false, false, false, false, false, false, false, false, false, false, false, false, false, false, false, false],
[false, false, false, false, false, false, true, false, false, false, false, false, false, false, false, false, false, false, false, false, false, false, false, false, false, false, false, false, false],
[false, false, false, false, false, false, false, false, false, false, false, false, false, false, false, false, false, false, false, false, false, false, false, false, false, false, false, false, false],
[false, false, false, false, false, false, true, false, false, false, false, false, false, false, false, false, false, false, false, false, false, false, false, false, false, false, false, false, false],
[false, false, false, false, false, false, false, false, false, false, false, false, false, false, false, false, false, false, false, false, false, false, false, false, false, false, false, false, false],
[false, false, false, false, false, false, true, false, false, false, false, false, false, false, false, false, false, false, false, false, false, false, false, false, false, false, false, false, false],
[false, false, false, false, false, false, false, false, false, false, false, false, false, false, false, false, false, false, false, false, false, false, false, false, false, false, false, false, false],
[false, false, false, false, false, false, true, false, false, false, false, false, false, false, false, false, false, false, false, false, false, false, false, false, false, false, false, false, false],
[false, false, false, false, false, false, false, false, false, false, false, false, false, false, false, false, false, false, false, false, false, false, false, false, false, false, false, false, false],
[false, false, false, false, false, false, true, false, false, false, false, false, false, false, false, false, false, false, false, false, false, false, false, false, false, false, false, false, false],
[false, false, false, false, false, false, false, false, false, false, false, false, false, false, false, false, false, false, false, false, false, false, false, false, false, false, false, false, false],
[false, false, false, false, false, false, true, false, false, false, false, false, false, false, false, false, false, false, false, false, false, false, false, false, false, false, false, false, false],
[false, false, false, false, false, false, false, false, false, false, false, false, false, false, false, false, false, false, false, false, false, false, false, false, false, false, false, false, false],
[false, false, false, false, false, false, true, false, false, false, false, false, false, false, false, false, false, false, false, false, true, true, true, true, true, false, false, false, false],
[false, false, false, false, false, false, false, false, true, false, false, false, false, false, false, false, false, false, false, false, true, false, false, false, true, false, false, false, false],
[true, true, true, true, true, true, true, false, false, false, false, false, false, false, false, false, false, false, false, false, true, false, true, false, true, false, false, false, false],
[true, false, false, false, false, false, true, false, false, false, false, false, false, false, false, false, false, false, false, false, true, false, false, false, true, false, false, false, false],
[true, false, true, true, true, false, true, false, false, false, false, false, false, false, false, false, false, false, false, false, true, true, true, true, true, false, false, false, false],
[true, false, true, true, true, false, true, false, false, false, false, false, false, false, false, false, false, false, false, false, false, false, false, false, false, false, false, false, false],
[true, false, true, true, true, false, true, false, false, false, false, false, false, false, false, false, false, false, false, false, false, false, false, false, false, false, false, false, false],
[true, false, false, false, false, false, true, false, false, false, false, false, false, false, false, false, false, false, false, false, false, false, false, false, false, false, false, false, false],
[true, true, true, true, true, true, true, false, false, false, false, false, false, false, false, false, false, false, false, false, false, false, false, false, false, false, false, false, false]]

/-- The grid after zig-zag data placement of `cwC3` under mask 0 (before
format information); fixed by `placeData_cwC3`. -/
def pdModC3 : List (List Bool) :=
[[true, true, true, true, true, true, true, false, false, true, false, false, true, false, true, true, false, false, true, true, false, false, true, true, true, true, true, true, true],
[true, false, false, false, false, false, true, false, false, false, true, true, true, true, true, true, true, false, true, true, false, false, true, false, false, false, false, false, true],
[true, false, true, true, true, false, true, false, false, true, true, false, true, false, true, true, false, false, false, true, false, false, true, false, true, true, true, false, true],
[true, false, true, true, true, false, true, false, false, true, true, true, false, false, true, false, false, false, false, false, false, false, true, false, true, true, true, false, true],
[true, false, true, true, true, false, true, false, false, false, true, false, false, false, true, true, false, false, true, true, false, false, true, false, true, true, true, false, true],
[true, false, false, false, false, false, true, false, false, true, false, false, false, true, true, true, true, true, false, true, true, false, true, false, false, false, false, false, true],
[true, true, true, true, true, true, true, false, true, false, true, false, true, false, true, false, true, false, true, false, true, false, true, true, true, true, true, true, true],
[false, false, false, false, false, false, false, false, false, true, true, false, true, true, true, false, false, true, false, true, false, false, false, false, false, false, false, false, false],
[false, false, false, false, false, false, true, false, false, false, true, true, false, true, true, false, true, true, false, true, true, false, false, false, false, false, false, false, false],
[true, false, true, false, false, false, false, true, true, false, true, true, false, true, false, true, true, true, false, false, true, true, true, false, false, true, false, false, true],
[true, false, false, false, false, true, true, false, true, true, false, false, false, false, true, false, true, true, false, false, true, true, false, true, false, true, false, true, true],
[true, false, true, true, false, false, false, false, true, false, false, true, false, true, true, true, false, true, false, false, false, true, true, false, true, true, false, false, false],
[true, true, true, false, true, true, true, true, true, false, false, false, true, true, true, false, true, true, false, false, false, true, true, false, false, false, false, false, false],
[false, false, true, false, true, true, false, false, false, true, false, true, true, true, false, false, false, false, false, false, true, true, true, false, false, true, false, true, true],
[false, true, false, true, false, false, true, false, false, false, false, true, true, false, true, false, true, true, false, false, true, true, true, false, true, false, true, true, true],
[true, false, true, true, false, false, false, true, false, false, true, false, true, true, true, false, false, true, true, true, true, false, true, false, true, false, false, true, false],
[false, false, true, false, false, true, true, true, true, false, true, true, false, false, true, false, false, true, false, false, false, true, true, false, false, false, false, false, false],
[false, false, false, true, false, true, false, false, false, true, false, true, false, false, false, true, true, true, true, false, true, true, true, false, false, true, true, true, true],
[true, false, false, false, true, true, true, false, false, true, true, false, false, true, false, false, false, true, true, false, false, true, true, false, true, true, true, true, true],
[false, true, true, true, true, true, false, false, true, true, false, true, false, false, false, true, false, true, false, false, false, false, false, true, false, false, false, true, false],
[true, false, true, false, false, false, true, true, true, true, true, false, true, false, false, false, false, true, true, false, true, true, true, true, true, true, false, true, true],
[false, false, false, false, false, false, false, false, true, false, true, true, true, true, false, true, true, true, false, false, true, false, false, false, true, true, false, false, false],
[true, true, true, true, true, true, true, false, false, true, false, true, true, false, true, false, true, false, true, true, true, false, true, false, true, true, false, true, true],
[true, false, false, false, false, false, true, false, false, false, true, false, true, true, true, true, false, true, false, false, true, false, false, false, true, true, false, true, false],
[true, false, true, true, true, false, true, false, false, false, false, true, false, false, true, false, true, false, false, false, true, true, true, true, true, false, false, false, false],
[true, false, true, true, true, false, true, false, false, true, true, true, false, false, true, false, false, true, true, true, false, false, false, true, true, true, false, true, true],
[true, false, true, true, true, false, true, false, false, true, true, false, false, true, false, false, true, true, false, false, true, true, false, false, true, false, true, false, true],
[true, false, false, false, false, false, true, false, false, false, true, true, false, false, false, false, false, true, false, true, true, true, false, false, false, false, false, true, false],
[true, true, true, true, true, true, true, false, false, false, false, false, true, false, false, false, false, true, true, false, true, false, false, false, true, false, false, true, true]]

/-- The first 560 bits of `bitsC3` (the 70 codewords' worth consumed by
the decoder); fixed by `take_bitsC3`. -/
def bitsTakeC3 : List Bool :=
[false, true, false, false, false, false, true, false, true, false, false, false, false, true, false, true, false, true, false, false, false, true, true, false, true, false, false, false, false, true, true, false, true, false, false, true, false, true, true, true, false, false, true, true, false, false, true, false, false, false, false, false, false, true, true, false, true, false, false, true, false, true, true, true, false, false, true, true, false, false, true, false, false, false, false, false, false, true, true, false, false, false, false, true, false, false, true, false, false, false, false, false, false, true, true, false, true, true, false, false, false, true, true, false, true, true, true, true, false, true, true, false, true, true, true, false, false, true, true, false, false, true, true, true, false, true, true, false, false, true, false, true, false, true, true, true, false, false, true, false, false, false, true, false, false, false, false, false, false, true, true, true, false, false, true, true, false, true, true, true, false, true, false, false, false, true, true, true, false, false, true, false, false, true, true, false, true, false, false, true, false, true, true, false, true, true, true, false, false, true, true, false, false, true, true, true, false, false, true, false, false, false, false, false, false, true, true, false, false, true, true, false, false, true, true, false, true, true, true, true, false, true, true, true, false, false, true, false, false, false, true, false, false, false, false, false, false, true, false, true, false, true, true, false, false, false, true, true, false, false, true, false, false, false, true, false, false, false, false, false, false, true, false, true, false, false, false, true, false, true, false, true, false, false, true, false, false, false, true, false, false, false, false, false, false, true, false, false, false, false, true, true, false, true, true, false, true, true, true, true, false, true, true, false, false, true, false, false, false, true, true, false, false, true, false, true, false, false, true, false, false, false, false, true, false, false, true, false, false, false, false, true, false, false, false, false, true, true, true, false, true, true, false, false, false, false, false, true, false, false, false, true, true, true, true, false, true, true, false, false, false, false, false, true, false, false, false, true, true, true, true, false, true, true, false, false, false, false, false, true, false, false, false, true, true, true, true, false, true, true, false, false, false, false, false, true, false, false, false, true, true, true, true, false, true, true, false, false, false, false, false, true, false, false, false, true, true, true, true, false, true, true, false, false, false, false, false, true, false, false, false, true, true, true, true, false, true, true, false, false, false, true, false, true, true, false, false, false, false, false, true, false, false, false, true, true, true, true, true, true, true, true, false, true, false, false, true, true, true, true, false, false, true, true, true, true, false, false, true, false, true, false, false, true, false, false, true, false, true, true, true, false, false, true, false, true, false, true, true, true, false, true, false, false, true, false, true, true, false, true, true, false, false, true, false, false, true, false, true, false, false, false, true, false, true, false, false, false, false, false, true, true, true, true, true, false, false, false, true, false, true, true, true, true, true, false, false, true, true, true, false, true, false, true, true, true, true, false, true, true]

/-! ### Concrete data for the dark-module check (claim C4): content [65]
("A") at level M, version 1, size 21. -/


/-- The 128-bit padded data stream for content [65] at version 1-M; fixed
by `buildDataBits_C4`. -/
def bdBitsC4 : List Bool :=
[false, true, false, false, false, false, false, false, false, false, false, true, false, true, false, false, false, false, false, true, false, false, false, false, true, true, true, false, true, true, false, false, false, false, false, true, false, false, false, true, true, true, true, false, true, true, false, false, false, false, false, true, false, false, false, true, true, true, true, false, true, true, false, false, false, false, false, true, false, false, false, true, true, true, true, false, true, true, false, false, false, false, false, true, false, false, false, true, true, true, true, false, true, true, false, false, false, false, false, true, false, false, false, true, true, true, true, false, true, true, false, false, false, false, false, true, false, false, false, true, true, true, true, false, true, true, false, false]

/-- The 16 data codewords of the stream; fixed by `bitsToCodewords_C4`. -/
def dataC4 : List Nat :=
[64, 20, 16, 236, 17, 236, 17, 236, 17, 236, 17, 236, 17, 236, 17, 236]

/-- The 10 EC codewords of `dataC4`; fixed by `CalculateEC_dataC4`. -/
def ecC4 : List Nat :=
[107, 112, 244, 24, 163, 122, 17, 95, 52, 252]

/-- The assembled 26-codeword message. -/
def cwC4 : List Nat :=
[64, 20, 16, 236, 17, 236, 17, 236, 17, 236, 17, 236, 17, 236, 17, 236, 107, 112, 244, 24, 163, 122, 17, 95, 52, 252]

/-- Modules after the version-1 function patterns; fixed by
`buildFunctionPatterns_21`. -/
def fpModC4 : List (List Bool) :=
[[true, true, true, true, true, true, true, false, false, false, false, false, false, false, true, true, true, true, true, true, true],
[true, false, false, false, false, false, true, false, false, false, false, false, false, false, true, false, false, false, false, false, true],
[true, false, true, true, true, false, true, false, false, false, false, false, false, false, true, false, true, true, true, false, true],
[true, false, true, true, true, false, true, false, false, false, false, false, false, false, true, false, true, true, true, false, true],
[true, false, true, true, true, false, true, false, false, false, false, false, false, false, true, false, true, true, true, false, true],
[true, false, false, false, false, false, true, false, false, false, false, false, false, false, true, false, false, false, false, false, true],
[true, true, true, true, true, true, true, false, true, false, true, false, true, false, true, true, true, true, true, true, true],
[false, false, false, false, false, false, false, false, false, false, false, false, false, false, false, false, false, false, false, false, false],
[false, false, false, false, false, false, true, false, false, false, false, false, false, false, false, false, false, false, false, false, false],
[false, false, false, false, false, false, false, false, false, false, false, false, false, false, false, false, false, false, false, false, false],
[false, false, false, false, false, false, true, false, false, false, false, false, false, false, false, false, false, false, false, false, false],
[false, false, false, false, false, false, false, false, false, false, false, false, false, false, false, false, false, false, false, false, false],
[false, false, false, false, false, false, true, false, false, false, false, false, false, false, false, false, false, false, false, false, false],
[false, false, false, false, false, false, false, false, true, false, false, false, false, false, false, false, false, false, false, false, false],
[true, true, true, true, true, true, true, false, false, false, false, false, false, false, false, false, false, false, false, false, false],
[true, false, false, false, false, false, true, false, false, false, false, false, false, false, false, false, false, false, false, false, false],
[true, false, true, true, true, false, true, false, false, false, false, false, false, false, false, false, false, false, false, false, false],
[true, false, true, true, true, false, true, false, false, false, false, false, false, false, false, false, false, false, false, false, false],
[true, false, true, true, true, false, true, false, false, false, false, false, false, false, false, false, false, false, false, false, false],
[true, false, false, false, false, false, true, false, false, false, false, false, false, false, false, false, false, false, false, false, false],
[true, true, true, true, true, true, true, false, false, false, false, false, false, false, false, false, false, false, false, false, false]]

/-- Function-pattern membership for version 1; fixed by
`buildFunctionPatterns_21`. -/
def isfC4 : List (List Bool) :=
[[true, true, true, true, true, true, true, true, true, false, false, false, false, true, true, true, true, true, true, true, true],
[true, true, true, true, true, true, true, true, true, false, false, false, false, true, true, true, true, true, true, true, true],
[true, true, true, true, true, true, true, true, true, false, false, false, false, true, true, true, true, true, true, true, true],
[true, true, true, true, true, true, true, true, true, false, false, false, false, true, true, true, true, true, true, true, true],
[true, true, true, true, true, true, true, true, true, false, false, false, false, true, true, true, true, true, true, true, true],
[true, true, true, true, true, true, true, true, true, false, false, false, false, true, true, true, true, true, true, true, true],
[true, true, true, true, true, true, true, true, true, true, true, true, true, true, true, true, true, true, true, true, true],
[true, true, true, true, true, true, true, true, true, false, false, false, false, true, true, true, true, true, true, true, true],
[true, true, true, true, true, true, true, true, true, false, false, false, false, true, true, true, true, true, true, true, true],
[false, false, false, false, false, false, true, false, false, false, false, false, false, false, false, false, false, false, false, false, false],
[false, false, false, false, false, false, true, false, false, false, false, false, false, false, false, false, false, false, false, false, false],
[false, false, false, false, false, false, true, false, false, false, false, false, false, false, false, false, false, false, false, false, false],
[false, false, false, false, false, false, true, false, false, false, false, false, false, false, false, false, false, false, false, false, false],
[true, true, true, true, true, true, true, true, true, false, false, false, false, false, false, false, false, false, false, false, false],
[true, true, true, true, true, true, true, true, true, false, false, false, false, false, false, false, false, false, false, false, false],
[true, true, true, true, true, true, true, true, true, false, false, false, false, false, false, false, false, false, false, false, false],
[true, true, true, true, true, true, true, true, true, false, false, false, false, false, false, false, false, false, false, false, false],
[true, true, true, true, true, true, true, true, true, false, false, false, false, false, false, false, false, false, false, false, false],
[true, true, true, true, true, true, true, true, true, false, false, false, false, false, false, false, false, false, false, false, false],
[true, true, true, true, true, true, true, true, true, false, false, false, false, false, false, false, false, false, false, false, false],
[true, true, true, true, true, true, true, true, true, false, false, false, false, false, false, false, false, false, false, false, false]]

/-- The grid after data placement of `cwC4` under mask 0; fixed by
`placeData_cwC4`. -/
def pdModC4 : List (List Bool) :=
[[true, true, true, true, true, true, true, false, false, true, true, true, false, false, true, true, true, true, true, true, true],
[true, false, false, false, false, false, true, false, false, false, true, true, true, false, true, false, false, false, false, false, true],
[true, false, true, true, true, false, true, false, false, false, true, false, false, false, true, false, true, true, true, false, true],
[true, false, true, true, true, false, true, false, false, true, false, false, false, false, true, false, true, true, true, false, true],
[true, false, true, true, true, false, true, false, false, true, false, false, true, false, true, false, true, true, true, false, true],
[true, false, false, false, false, false, true, false, false, false, true, false, true, false, true, false, false, false, false, false, true],
[true, true, true, true, true, true, true, false, true, false, true, false, true, false, true, true, true, true, true, true, true],
[false, false, false, false, false, false, false, false, false, false, false, true, true, false, false, false, false, false, false, false, false],
[false, false, false, false, false, false, true, false, false, false, true, true, false, false, false, false, false, false, false, false, false],
[true, false, false, true, true, true, false, false, false, true, false, false, false, false, true, false, false, false, true, true, false],
[false, true, false, false, false, false, true, false, true, true, true, false, true, false, false, false, true, false, false, false, true],
[true, false, true, false, true, false, false, false, false, true, true, false, false, false, true, false, false, false, true, false, false],
[true, false, true, false, false, true, true, false, true, false, true, false, true, false, true, false, true, false, true, false, true],
[false, false, false, false, false, false, false, false, true, true, true, true, false, true, false, true, false, true, false, true, false],
[true, true, true, true, true, true, true, false, false, false, false, true, false, true, true, true, false, true, true, true, true],
[true, false, false, false, false, false, true, false, false, true, false, true, true, true, false, true, true, true, false, false, false],
[true, false, true, true, true, false, true, false, false, true, false, true, false, true, true, true, false, true, true, false, true],
[true, false, true, true, true, false, true, false, false, false, false, false, false, false, true, false, false, false, true, true, false],
[true, false, true, true, true, false, true, false, false, true, false, false, true, false, false, false, true, false, false, false, true],
[true, false, false, false, false, false, true, false, false, true, true, false, false, false, true, false, false, false, true, true, false],
[true, true, true, true, true, true, true, false, false, false, false, false, true, false, true, false, true, false, true, true, true]]

/-- The final symbol grid for content [65] at level M: the second format
copy has overwritten the dark module at (13, 8) with format bit 8 = 0. -/
def gridC4 : List (List Bool) :=
[[true, true, true, true, true, true, true, false, false, true, true, true, false, false, true, true, true, true, true, true, true],
[true, false, false, false, false, false, true, false, true, false, true, true, true, false, true, false, false, false, false, false, true],
[true, false, true, true, true, false, true, false, false, false, true, false, false, false, true, false, true, true, true, false, true],
[true, false, true, true, true, false, true, false, false, true, false, false, false, false, true, false, true, true, true, false, true],
[true, false, true, true, true, false, true, false, true, true, false, false, true, false, true, false, true, true, true, false, true],
[true, false, false, false, false, false, true, false, false, false, true, false, true, false, true, false, false, false, false, false, true],
[true, true, true, true, true, true, true, false, true, false, true, false, true, false, true, true, true, true, true, true, true],
[false, false, false, false, false, false, false, false, false, false, false, true, true, false, false, false, false, false, false, false, false],
[true, false, true, false, true, false, true, false, false, false, true, true, false, false, false, false, true, false, false, true, false],
[true, false, false, true, true, true, false, false, false, true, false, false, false, false, true, false, false, false, true, true, false],
[false, true, false, false, false, false, true, false, true, true, true, false, true, false, false, false, true, false, false, false, true],
[true, false, true, false, true, false, false, false, false, true, true, false, false, false, true, false, false, false, true, false, false],
[true, false, true, false, false, true, true, false, true, false, true, false, true, false, true, false, true, false, true, false, true],
[false, false, false, false, false, false, false, false, false, true, true, true, false, true, false, true, false, true, false, true, false],
[true, true, true, true, true, true, true, false, false, false, false, true, false, true, true, true, false, true, true, true, true],
[true, false, false, false, false, false, true, false, true, true, false, true, true, true, false, true, true, true, false, false, false],
[true, false, true, true, true, false, true, false, false, true, false, true, false, true, true, true, false, true, true, false, true],
[true, false, true, true, true, false, true, false, true, false, false, false, false, false, true, false, false, false, true, true, false],
[true, false, true, true, true, false, true, false, false, true, false, false, true, false, false, false, true, false, false, false, true],
[true, false, false, false, false, false, true, false, true, true, true, false, false, false, true, false, false, false, true, true, false],
[true, true, true, true, true, true, true, false, false, false, false, false, true, false, true, false, true, false, true, true, true]]

/-- The symbol produced for content [65] at level M. -/
def qrC4 : QRCode :=
  { Version := 1, Level := 0, Size := 21, Modules := gridC4 }


/-! ### Rasterizer model (writer.go) -/

/-- One `img.SetColorIndex(x, y, 1)` (writer.go line 39): the paletted
image stores one byte per pixel with row stride `dim`, and
`image.Paletted.SetColorIndex` drops out-of-bounds points. -/
def setPix (pix : List Nat) (dim x y : Nat) : List Nat :=
  if x < dim ∧ y < dim then pix.set (y * dim + x) 1 else pix

/-- The scaled-module fill loops of `WritePNG` (writer.go lines 37-42):
a `scale × scale` block of 1s with top-left pixel `(sx, sy)`. -/
def fillSquare (pix : List Nat) (dim scale sx sy : Nat) : List Nat :=
  (List.range scale).foldl
    (fun pix y =>
      (List.range scale).foldl
        (fun pix x => setPix pix dim (sx + x) (sy + y)) pix) pix

/-- The pixel buffer written by `WritePNG` (writer.go lines 12-46): scale
is clamped to at least 1, the image side is `(Size + 2*4) * scale`, the
buffer starts all white (0) and every dark module is drawn as a
`scale × scale` block of 1s offset by the 4-module border.  The PNG
byte-stream encoding itself (line 46) is not modelled. -/
def WritePNGPix (qr : QRCode) (scale0 : Nat) : List Nat :=
  let scale := if scale0 < 1 then 1 else scale0
  let border := 4
  let dim := (qr.Size + 2 * border) * scale
  (List.range qr.Size).foldl
    (fun pix r =>
      (List.range qr.Size).foldl
        (fun pix c =>
          if gridGet qr.Modules r c then
            fillSquare pix dim scale ((c + border) * scale)
              ((r + border) * scale)
          else pix)
        pix)
    (List.replicate (dim * dim) 0)

/-- Pixel accessor for the stride-`dim` buffer. -/
def getPix (pix : List Nat) (dim px py : Nat) : Nat :=
  pix.getD (py * dim + px) 0

/-- A pixel is covered by a dark module: some in-range dark module's
`scale × scale` square, offset by the 4-module quiet zone, contains it. -/
def coveredByDark (qr : QRCode) (scale px py : Nat) : Prop :=
  ∃ r, r < qr.Size ∧ ∃ c, c < qr.Size ∧ gridGet qr.Modules r c = true ∧
    (c + 4) * scale ≤ px ∧ px < (c + 4) * scale + scale ∧
    (r + 4) * scale ≤ py ∧ py < (r + 4) * scale + scale

instance (qr : QRCode) (scale px py : Nat) :
    Decidable (coveredByDark qr scale px py) :=
  decidable_of_iff
    (∃ r ∈ List.range qr.Size, ∃ c ∈ List.range qr.Size,
      gridGet qr.Modules r c = true ∧
      (c + 4) * scale ≤ px ∧ px < (c + 4) * scale + scale ∧
      (r + 4) * scale ≤ py ∧ py < (r + 4) * scale + scale)
    (by simp only [coveredByDark, List.mem_range])

/-! ### Decided table facts -/

theorem exp_lt_of_lt : ∀ i : Nat, i < 255 → expTable i < 256 := by decide

theorem exp_pos : ∀ i : Nat, i < 255 → 0 < expTable i := by decide

theorem log_lt : ∀ v : Nat, v < 256 → 0 < v → logTable v < 255 := by decide

theorem exp_log : ∀ v : Nat, v < 256 → 0 < v → expTable (logTable v) = v := by
  decide

theorem log_exp : ∀ i : Nat, i < 255 → logTable (expTable i) = i := by decide

theorem exp_succ_gfDouble :
    ∀ i : Nat, i < 255 → expTable ((i + 1) % 255) = gfDouble (expTable i) := by
  decide

theorem gfDouble_lt : ∀ v : Nat, v < 256 → gfDouble v < 256 := by decide

theorem xor_hi_lt : ∀ x : Nat, x < 256 → 128 ≤ x → x ^^^ 128 < 128 := by decide

theorem xor_hi_ge : ∀ z : Nat, z < 128 → 128 ≤ 128 ^^^ z ∧ 128 ^^^ z < 256 := by
  decide

theorem two_mul_xor (x y : Nat) : 2 * (x ^^^ y) = 2 * x ^^^ 2 * y := by
  have h2 : ∀ a : Nat, 2 * a = 2 ^ 1 * a := by intro a; rw [Nat.pow_one]
  rw [h2 (x ^^^ y), h2 x, h2 y]
  apply Nat.eq_of_testBit_eq
  intro j
  simp only [Nat.testBit_xor, Nat.testBit_mul_pow_two]
  by_cases hj : j ≥ 1 <;> simp [hj]

/-- Each entry of `expTable` is below 256 (no index restriction: the unset
last entry is 0). -/
theorem exp_lt (i : Nat) : expTable i < 256 := by
  unfold expTable
  split
  · have h := Nat.and_le_right (n := tables.1 >>> (8 * i)) (m := 255)
    omega
  · omega

theorem gfDouble_eq_low (v : Nat) (h : v < 128) : gfDouble v = 2 * v := by
  unfold gfDouble
  rw [if_neg]
  omega

theorem gfDouble_eq_high (v : Nat) (h : 128 ≤ v) : gfDouble v = 2 * v ^^^ 285 := by
  unfold gfDouble
  rw [if_pos]
  omega

theorem xor_lt_256 (x y : Nat) (hx : x < 256) (hy : y < 256) : x ^^^ y < 256 := by
  have := Nat.xor_lt_two_pow (n := 8) (x := x) (y := y)
  simp at this
  exact this hx hy

theorem xor_lt_128 (x y : Nat) (hx : x < 128) (hy : y < 128) : x ^^^ y < 128 := by
  have := Nat.xor_lt_two_pow (n := 7) (x := x) (y := y)
  simp at this
  exact this hx hy

theorem xor_ge_128 (x y : Nat) (hx : x < 128) (hy : 128 ≤ y) (hy2 : y < 256) :
    128 ≤ x ^^^ y ∧ x ^^^ y < 256 := by
  have hz : y ^^^ 128 < 128 := xor_hi_lt y hy2 hy
  have hxz : x ^^^ (y ^^^ 128) < 128 := xor_lt_128 _ _ hx hz
  have hrw : x ^^^ y = 128 ^^^ (x ^^^ (y ^^^ 128)) := by
    have hac : 128 ^^^ (x ^^^ (y ^^^ 128)) = (128 ^^^ 128) ^^^ (x ^^^ y) := by ac_rfl
    rw [hac, Nat.xor_self, Nat.zero_xor]
  rw [hrw]
  exact ⟨(xor_hi_ge _ hxz).1, (xor_hi_ge _ hxz).2⟩

theorem gfDouble_xor (x y : Nat) (hx : x < 256) (hy : y < 256) :
    gfDouble (x ^^^ y) = gfDouble x ^^^ gfDouble y := by
  by_cases hx7 : x < 128 <;> by_cases hy7 : y < 128
  · rw [gfDouble_eq_low x hx7, gfDouble_eq_low y hy7,
      gfDouble_eq_low _ (xor_lt_128 x y hx7 hy7), two_mul_xor]
  · have hge := xor_ge_128 x y hx7 (by omega) hy
    rw [gfDouble_eq_low x hx7, gfDouble_eq_high y (by omega),
      gfDouble_eq_high _ hge.1, two_mul_xor, Nat.xor_assoc]
  · have hge := xor_ge_128 y x hy7 (by omega) hx
    have hxy : 128 ≤ x ^^^ y := by rw [Nat.xor_comm x y]; exact hge.1
    rw [gfDouble_eq_high x (by omega), gfDouble_eq_low y hy7,
      gfDouble_eq_high _ hxy, two_mul_xor]
    ac_rfl
  · have hax : x ^^^ 128 < 128 := xor_hi_lt x hx (by omega)
    have hay : y ^^^ 128 < 128 := xor_hi_lt y hy (by omega)
    have hxy : x ^^^ y < 128 := by
      have hrw : (x ^^^ 128) ^^^ (y ^^^ 128) = (x ^^^ y) ^^^ (128 ^^^ 128) := by
        ac_rfl
      have h2 := xor_lt_128 _ _ hax hay
      rw [hrw, Nat.xor_self, Nat.xor_zero] at h2
      exact h2
    have hac : (2 * x ^^^ 285) ^^^ (2 * y ^^^ 285) =
        (2 * x ^^^ 2 * y) ^^^ (285 ^^^ 285) := by ac_rfl
    rw [gfDouble_eq_high x (by omega), gfDouble_eq_high y (by omega),
      gfDouble_eq_low _ hxy, two_mul_xor, hac, Nat.xor_self, Nat.xor_zero]

/-! ### `gfMul` as iterated doubling, and its (partial) field algebra -/

theorem iter_gfDouble_zero (n : Nat) : gfDouble^[n] 0 = 0 := by
  induction n with
  | zero => rfl
  | succ n ih => rw [Function.iterate_succ_apply', ih]; rfl

theorem iter_gfDouble_lt (n v : Nat) (h : v < 256) : gfDouble^[n] v < 256 := by
  induction n with
  | zero => exact h
  | succ n ih => rw [Function.iterate_succ_apply']; exact gfDouble_lt _ ih

theorem iter_gfDouble_xor (n b c : Nat) (hb : b < 256) (hc : c < 256) :
    gfDouble^[n] (b ^^^ c) = gfDouble^[n] b ^^^ gfDouble^[n] c := by
  induction n with
  | zero => rfl
  | succ n ih =>
    rw [Function.iterate_succ_apply', Function.iterate_succ_apply',
      Function.iterate_succ_apply', ih,
      gfDouble_xor _ _ (iter_gfDouble_lt n b hb) (iter_gfDouble_lt n c hc)]

theorem iter_gfDouble_exp (n v : Nat) (hv : v < 256) (hv0 : 0 < v) :
    gfDouble^[n] v = expTable ((logTable v + n) % 255) := by
  induction n with
  | zero =>
    rw [Function.iterate_zero_apply, Nat.add_zero,
      Nat.mod_eq_of_lt (log_lt v hv hv0), exp_log v hv hv0]
  | succ n ih =>
    rw [Function.iterate_succ_apply', ih,
      ← exp_succ_gfDouble _ (Nat.mod_lt _ (by omega))]
    congr 1
    omega

theorem log_one : logTable 1 = 0 := by decide

theorem gfMul_lt (x y : Nat) : gfMul x y < 256 := by
  unfold gfMul
  split
  · omega
  · exact exp_lt _

theorem gfMul_zero (x : Nat) : gfMul x 0 = 0 := by simp [gfMul]

theorem zero_gfMul (y : Nat) : gfMul 0 y = 0 := by simp [gfMul]

theorem gfMul_comm (x y : Nat) : gfMul x y = gfMul y x := by
  unfold gfMul
  rw [Nat.add_comm (logTable x)]
  by_cases hx : x = 0 <;> by_cases hy : y = 0 <;> simp [hx, hy]

theorem gfMul_eq_exp (x y : Nat) (hx0 : 0 < x) (hy0 : 0 < y) :
    gfMul x y = expTable ((logTable x + logTable y) % 255) := by
  unfold gfMul
  rw [if_neg]
  omega

theorem gfMul_pos (x y : Nat) (hx : x < 256) (hy : y < 256) (hx0 : 0 < x)
    (hy0 : 0 < y) : 0 < gfMul x y := by
  rw [gfMul_eq_exp x y hx0 hy0]
  exact exp_pos _ (Nat.mod_lt _ (by omega))

theorem log_gfMul (x y : Nat) (hx : x < 256) (hy : y < 256) (hx0 : 0 < x)
    (hy0 : 0 < y) :
    logTable (gfMul x y) = (logTable x + logTable y) % 255 := by
  rw [gfMul_eq_exp x y hx0 hy0]
  exact log_exp _ (Nat.mod_lt _ (by omega))

theorem gfMul_one (x : Nat) (hx : x < 256) : gfMul x 1 = x := by
  rcases Nat.eq_zero_or_pos x with h | h
  · simp [h, zero_gfMul]
  · rw [gfMul_eq_exp x 1 h (by omega), log_one, Nat.add_zero,
      Nat.mod_eq_of_lt (log_lt x hx h), exp_log x hx h]

theorem one_gfMul (y : Nat) (hy : y < 256) : gfMul 1 y = y := by
  rw [gfMul_comm]
  exact gfMul_one y hy

theorem gfMul_assoc (x y z : Nat) (hx : x < 256) (hy : y < 256) (hz : z < 256) :
    gfMul (gfMul x y) z = gfMul x (gfMul y z) := by
  rcases Nat.eq_zero_or_pos x with hx0 | hx0
  · simp [hx0, zero_gfMul]
  rcases Nat.eq_zero_or_pos y with hy0 | hy0
  · simp [hy0, gfMul_zero, zero_gfMul]
  rcases Nat.eq_zero_or_pos z with hz0 | hz0
  · simp [hz0, gfMul_zero]
  have hxy0 := gfMul_pos x y hx hy hx0 hy0
  have hyz0 := gfMul_pos y z hy hz hy0 hz0
  rw [gfMul_eq_exp _ z hxy0 hz0, gfMul_eq_exp x _ hx0 hyz0,
    log_gfMul x y hx hy hx0 hy0, log_gfMul y z hy hz hy0 hz0]
  congr 1
  omega

theorem gfMul_eq_iter (x y : Nat) (hx : x < 256) (hx0 : 0 < x) (hy : y < 256) :
    gfMul x y = gfDouble^[logTable x] y := by
  rcases Nat.eq_zero_or_pos y with hy0 | hy0
  · rw [hy0, gfMul_zero, iter_gfDouble_zero]
  · rw [gfMul_eq_exp x y hx0 hy0, iter_gfDouble_exp _ y hy hy0, Nat.add_comm]

theorem gfMul_xor_left (a b c : Nat) (ha : a < 256) (hb : b < 256) (hc : c < 256) :
    gfMul a (b ^^^ c) = gfMul a b ^^^ gfMul a c := by
  rcases Nat.eq_zero_or_pos a with ha0 | ha0
  · simp [ha0, zero_gfMul]
  rw [gfMul_eq_iter a _ ha ha0 (xor_lt_256 b c hb hc),
    gfMul_eq_iter a b ha ha0 hb, gfMul_eq_iter a c ha ha0 hc,
    iter_gfDouble_xor _ b c hb hc]

theorem gfMul_xor_right (a b c : Nat) (ha : a < 256) (hb : b < 256) (hc : c < 256) :
    gfMul (a ^^^ b) c = gfMul a c ^^^ gfMul b c := by
  rw [gfMul_comm _ c, gfMul_comm a c, gfMul_comm b c]
  exact gfMul_xor_left c a b hc ha hb

/-! ### Polynomial evaluation lemmas -/

theorem gfPow_lt (x n : Nat) : gfPow x n < 256 := by
  cases n with
  | zero => norm_num [gfPow]
  | succ n => exact gfMul_lt _ _

theorem polyEvalFrom_lt (x : Nat) (p : List Nat) (hp : allLt p) :
    ∀ a : Nat, a < 256 → polyEvalFrom x a p < 256 := by
  induction p with
  | nil => intro a ha; exact ha
  | cons c t ih =>
    intro a ha
    have hc : c < 256 := hp c (by simp)
    have ht : allLt t := fun d hd => hp d (by simp [hd])
    show polyEvalFrom x (gfMul a x ^^^ c) t < 256
    exact ih ht _ (xor_lt_256 _ _ (gfMul_lt _ _) hc)

theorem polyEval_lt (p : List Nat) (x : Nat) (hp : allLt p) : polyEval p x < 256 :=
  polyEvalFrom_lt x p hp 0 (by omega)

theorem polyEvalFrom_xor_acc (x : Nat) (p : List Nat) (hx : x < 256)
    (hp : allLt p) :
    ∀ a w : Nat, a < 256 → w < 256 →
      polyEvalFrom x (a ^^^ w) p = polyEvalFrom x a p ^^^ gfMul w (gfPow x p.length) := by
  induction p with
  | nil =>
    intro a w _ hw
    show a ^^^ w = a ^^^ gfMul w 1
    rw [gfMul_one w hw]
  | cons c t ih =>
    intro a w ha hw
    have hc : c < 256 := hp c (by simp)
    have ht : allLt t := fun d hd => hp d (by simp [hd])
    show polyEvalFrom x (gfMul (a ^^^ w) x ^^^ c) t =
      polyEvalFrom x (gfMul a x ^^^ c) t ^^^ gfMul w (gfPow x (t.length + 1))
    rw [gfMul_xor_right a w x ha hw hx]
    have hac : (gfMul a x ^^^ gfMul w x) ^^^ c = (gfMul a x ^^^ c) ^^^ gfMul w x := by
      ac_rfl
    rw [hac, ih ht _ _ (xor_lt_256 _ _ (gfMul_lt _ _) hc) (gfMul_lt _ _)]
    congr 1
    rw [gfMul_assoc w x (gfPow x t.length) hw hx (gfPow_lt _ _)]
    show gfMul w (gfMul x (gfPow x t.length)) = gfMul w (gfPow x (t.length + 1))
    rw [gfMul_comm x (gfPow x t.length)]
    rfl

theorem polyEval_append (p q : List Nat) (x : Nat) :
    polyEval (p ++ q) x = polyEvalFrom x (polyEval p x) q := by
  simp [polyEval, polyEvalFrom, List.foldl_append]

theorem polyEval_append_eval (p q : List Nat) (x : Nat) (hx : x < 256)
    (hp : allLt p) (hq : allLt q) :
    polyEval (p ++ q) x =
      gfMul (polyEval p x) (gfPow x q.length) ^^^ polyEval q x := by
  rw [polyEval_append p q x]
  have hple := polyEval_lt p x hp
  have key := polyEvalFrom_xor_acc x q hx hq 0 (polyEval p x) (by omega) hple
  rw [Nat.zero_xor] at key
  rw [key]
  show polyEval q x ^^^ gfMul (polyEval p x) (gfPow x q.length) = _
  exact Nat.xor_comm _ _

theorem polyEval_zero_entries (p : List Nat) (x : Nat)
    (h : ∀ k : Nat, k < p.length → p.getD k 0 = 0) : polyEval p x = 0 := by
  induction p with
  | nil => rfl
  | cons c t ih =>
    have hc : c = 0 := h 0 (by simp)
    have ht : ∀ k : Nat, k < t.length → t.getD k 0 = 0 := by
      intro k hk
      have := h (k + 1) (by simp; omega)
      simpa using this
    show polyEvalFrom x (gfMul 0 x ^^^ c) t = 0
    rw [zero_gfMul, Nat.zero_xor, hc]
    exact ih ht

theorem polyEval_replicate_zero (n : Nat) (x : Nat) :
    polyEval (List.replicate n 0) x = 0 := by
  apply polyEval_zero_entries
  intro k hk
  simp at hk
  simp [List.getD_eq_getElem?_getD, List.getElem?_replicate, hk]

/-! ### Lists: `set`/`getD` helpers and entry bounds -/

theorem getD_set_ne (l : List Nat) (i j : Nat) (h : i ≠ j) (v d : Nat) :
    (l.set i v).getD j d = l.getD j d := by
  simp [List.getD_eq_getElem?_getD, List.getElem?_set_ne h]

theorem getD_set_self (l : List Nat) (i : Nat) (hi : i < l.length) (v d : Nat) :
    (l.set i v).getD i d = v := by
  simp [List.getD_eq_getElem?_getD, List.getElem?_set_self hi]

theorem getD_replicate_zero (n k d : Nat) :
    (List.replicate n 0).getD k d = if k < n then 0 else d := by
  by_cases hk : k < n
  · simp [List.getD_eq_getElem?_getD, List.getElem?_replicate, hk]
  · have : (List.replicate n (0 : Nat)).length ≤ k := by simp; omega
    simp [List.getD_eq_getElem?_getD, List.getElem?_eq_none this, hk]

theorem allLt_set (l : List Nat) (i v : Nat) (hl : allLt l) (hv : v < 256) :
    allLt (l.set i v) := by
  intro c hc
  rcases List.mem_or_eq_of_mem_set hc with h | h
  · exact hl c h
  · omega

theorem allLt_replicate_zero (n : Nat) : allLt (List.replicate n 0) := by
  intro c hc
  have := List.eq_of_mem_replicate hc
  omega

theorem allLt_append (p q : List Nat) (hp : allLt p) (hq : allLt q) :
    allLt (p ++ q) := by
  intro c hc
  rcases List.mem_append.mp hc with h | h
  · exact hp c h
  · exact hq c h

theorem allLt_take (p : List Nat) (n : Nat) (hp : allLt p) : allLt (p.take n) :=
  fun c hc => hp c (List.mem_of_mem_take hc)

theorem allLt_drop (p : List Nat) (n : Nat) (hp : allLt p) : allLt (p.drop n) :=
  fun c hc => hp c (List.mem_of_mem_drop hc)

/-- Effect of a single read-xor-write update on Horner evaluation. -/
theorem polyEvalFrom_set (x : Nat) (hx : x < 256) (p : List Nat) :
    ∀ k a v : Nat, allLt p → a < 256 → v < 256 → k < p.length →
      polyEvalFrom x a (p.set k (p.getD k 0 ^^^ v)) =
        polyEvalFrom x a p ^^^ gfMul v (gfPow x (p.length - 1 - k)) := by
  induction p with
  | nil => intro k a v _ _ _ hk; simp at hk
  | cons c t ih =>
    intro k a v hp ha hv hk
    have hc : c < 256 := hp c (by simp)
    have ht : allLt t := fun d hd => hp d (by simp [hd])
    cases k with
    | zero =>
      show polyEvalFrom x (gfMul a x ^^^ (c ^^^ v)) t =
        polyEvalFrom x (gfMul a x ^^^ c) t ^^^
          gfMul v (gfPow x ((c :: t).length - 1 - 0))
      have hshuffle : gfMul a x ^^^ (c ^^^ v) = (gfMul a x ^^^ c) ^^^ v := by
        ac_rfl
      have hexp : (c :: t).length - 1 - 0 = t.length := by simp
      rw [hshuffle, hexp]
      exact polyEvalFrom_xor_acc x t hx ht _ v
        (xor_lt_256 _ _ (gfMul_lt _ _) hc) hv
    | succ k =>
      have hk2 : k < t.length := by simp at hk; omega
      show polyEvalFrom x (gfMul a x ^^^ c) (t.set k (t.getD k 0 ^^^ v)) =
        polyEvalFrom x (gfMul a x ^^^ c) t ^^^
          gfMul v (gfPow x ((c :: t).length - 1 - (k + 1)))
      have hexp : (c :: t).length - 1 - (k + 1) = t.length - 1 - k := by
        simp
        omega
      rw [hexp]
      exact ih _ _ _ ht (xor_lt_256 _ _ (gfMul_lt _ _) hc) hv hk2

theorem polyEval_set (p : List Nat) (k v x : Nat) (hx : x < 256)
    (hp : allLt p) (hv : v < 256) (hk : k < p.length) :
    polyEval (p.set k (p.getD k 0 ^^^ v)) x =
      polyEval p x ^^^ gfMul v (gfPow x (p.length - 1 - k)) :=
  polyEvalFrom_set x hx p k 0 v hp (by omega) hv hk

theorem range_foldl_succ {α : Type} (f : α → Nat → α) (b : α) (n : Nat) :
    (List.range (n + 1)).foldl f b = f ((List.range n).foldl f b) n := by
  rw [List.range_succ, List.foldl_append]
  rfl

/-! ### Multiplication of the gfMul helpers needed for rearrangements -/

theorem gfMul_right_comm (p q r : Nat) (hp : p < 256) (hq : q < 256)
    (hr : r < 256) : gfMul (gfMul p q) r = gfMul (gfMul p r) q := by
  rw [gfMul_assoc p q r hp hq hr, gfMul_comm q r, ← gfMul_assoc p r q hp hr hq]

theorem gfMul_mul_mul_comm (p q r s : Nat) (hp : p < 256) (hq : q < 256)
    (hr : r < 256) (hs : s < 256) :
    gfMul (gfMul p q) (gfMul r s) = gfMul (gfMul p r) (gfMul q s) := by
  rw [gfMul_assoc p q (gfMul r s) hp hq (gfMul_lt r s),
    gfMul_assoc p r (gfMul q s) hp hr (gfMul_lt q s)]
  congr 1
  rw [← gfMul_assoc q r s hq hr hs, gfMul_comm q r,
    gfMul_assoc r q s hr hq hs]

theorem gfPow_succ_mul (x n : Nat) (hx : x < 256) :
    gfMul x (gfPow x n) = gfPow x (n + 1) := by
  show gfMul x (gfPow x n) = gfMul (gfPow x n) x
  rw [gfMul_comm]

/-- Horner step for `take`: evaluating one more prefix coefficient. -/
theorem polyEval_take_succ (p : List Nat) (n x : Nat) (hn : n < p.length) :
    polyEval (p.take (n + 1)) x = gfMul (polyEval (p.take n) x) x ^^^ p.getD n 0 := by
  have hsome : p[n]? = some p[n] := List.getElem?_eq_getElem hn
  have htake : p.take (n + 1) = p.take n ++ [p[n]] := by
    rw [List.take_succ, hsome]
    rfl
  rw [htake, polyEval_append]
  show gfMul (polyEval (p.take n) x) x ^^^ p[n] = _
  congr 1
  simp [List.getD_eq_getElem?_getD, hsome]

theorem getD_lt_of_allLt (l : List Nat) (k : Nat) (h : allLt l)
    (hk : k < l.length) : l.getD k 0 < 256 := by
  have hg : l.getD k 0 = l[k] := by
    simp [List.getD_eq_getElem?_getD, List.getElem?_eq_getElem hk]
  rw [hg]
  exact h _ (List.getElem_mem hk)

/-! ### Characterization of `gfPolyMul p [a, b]` -/

theorem pairStep_eq (p : List Nat) (a b : Nat) (res : List Nat) (i : Nat) :
    pairStep p a b res i =
      (res.set i (res.getD i 0 ^^^ gfMul (p.getD i 0) a)).set (i + 1)
        ((res.set i (res.getD i 0 ^^^ gfMul (p.getD i 0) a)).getD (i + 1) 0 ^^^
          gfMul (p.getD i 0) b) := rfl

theorem gfPolyMul_pair_aux (p : List Nat) (a b x : Nat) (hx : x < 256)
    (ha : a < 256) (hb : b < 256) (hp : allLt p) :
    ∀ n : Nat, n ≤ p.length →
      (((List.range n).foldl (pairStep p a b)
          (List.replicate (p.length + 1) 0)).length = p.length + 1) ∧
      allLt ((List.range n).foldl (pairStep p a b)
          (List.replicate (p.length + 1) 0)) ∧
      (polyEval ((List.range n).foldl (pairStep p a b)
          (List.replicate (p.length + 1) 0)) x
        = gfMul (gfMul (polyEval (p.take n) x) (gfPow x (p.length - n)))
            (gfMul a x ^^^ b)) ∧
      (0 < n →
        ((List.range n).foldl (pairStep p a b)
            (List.replicate (p.length + 1) 0)).getD 0 0 = gfMul (p.getD 0 0) a) := by
  intro n
  induction n with
  | zero =>
    intro _
    refine ⟨by simp, allLt_replicate_zero _, ?_, by omega⟩
    have h0 : (List.range 0).foldl (pairStep p a b) (List.replicate (p.length + 1) 0)
        = List.replicate (p.length + 1) 0 := rfl
    have htk : polyEval (p.take 0) x = 0 := rfl
    rw [h0, polyEval_replicate_zero, htk, zero_gfMul, zero_gfMul]
  | succ n ih =>
    intro hn1
    have hn : n < p.length := hn1
    obtain ⟨ihlen, ihlt, iheval, ihhead⟩ := ih (by omega)
    rw [range_foldl_succ (pairStep p a b) (List.replicate (p.length + 1) 0) n] at *
    set A := (List.range n).foldl (pairStep p a b) (List.replicate (p.length + 1) 0)
      with hA
    rw [pairStep_eq]
    set c := p.getD n 0 with hc
    have hclt : c < 256 := getD_lt_of_allLt p n hp hn
    set A1 := A.set n (A.getD n 0 ^^^ gfMul c a) with hA1
    have hA1len : A1.length = p.length + 1 := by rw [hA1, List.length_set, ihlen]
    have hA1lt : allLt A1 := by
      rw [hA1]
      exact allLt_set _ _ _ ihlt
        (xor_lt_256 _ _ (getD_lt_of_allLt A n ihlt (by rw [ihlen]; omega))
          (gfMul_lt _ _))
    have hA1eval : polyEval A1 x
        = polyEval A x ^^^ gfMul (gfMul c a) (gfPow x (p.length - n)) := by
      rw [hA1]
      have hset := polyEval_set A n (gfMul c a) x hx ihlt (gfMul_lt _ _)
        (by rw [ihlen]; omega)
      have hexp : A.length - 1 - n = p.length - n := by rw [ihlen]; omega
      rw [hset, hexp]
    have hBeval : polyEval (A1.set (n + 1) (A1.getD (n + 1) 0 ^^^ gfMul c b)) x
        = polyEval A1 x ^^^ gfMul (gfMul c b) (gfPow x (p.length - (n + 1))) := by
      have hset := polyEval_set A1 (n + 1) (gfMul c b) x hx hA1lt (gfMul_lt _ _)
        (by rw [hA1len]; omega)
      have hexp : A1.length - 1 - (n + 1) = p.length - (n + 1) := by
        rw [hA1len]; omega
      rw [hset, hexp]
    refine ⟨by simp [List.length_set, hA1len], ?_, ?_, ?_⟩
    · exact allLt_set _ _ _ hA1lt
        (xor_lt_256 _ _ (getD_lt_of_allLt A1 (n + 1) hA1lt (by rw [hA1len]; omega))
          (gfMul_lt _ _))
    · rw [hBeval, hA1eval, iheval, polyEval_take_succ p n x hn]
      have hE : polyEval (p.take n) x < 256 := polyEval_lt _ _ (allLt_take p n hp)
      have hEx : gfMul (polyEval (p.take n) x) x < 256 := gfMul_lt _ _
      have hpw1 : gfPow x (p.length - n) < 256 := gfPow_lt _ _
      have hpw2 : gfPow x (p.length - (n + 1)) < 256 := gfPow_lt _ _
      have hT : gfMul a x ^^^ b < 256 := xor_lt_256 _ _ (gfMul_lt _ _) hb
      rw [gfMul_xor_right (gfMul (polyEval (p.take n) x) x) c
        (gfPow x (p.length - (n + 1))) hEx hclt hpw2]
      rw [gfMul_xor_right (gfMul (gfMul (polyEval (p.take n) x) x)
          (gfPow x (p.length - (n + 1)))) (gfMul c (gfPow x (p.length - (n + 1))))
          (gfMul a x ^^^ b) (gfMul_lt _ _) (gfMul_lt _ _) hT]
      have hidx : p.length - (n + 1) + 1 = p.length - n := by omega
      have h3 : gfMul (gfMul (polyEval (p.take n) x) x) (gfPow x (p.length - (n + 1)))
          = gfMul (polyEval (p.take n) x) (gfPow x (p.length - n)) := by
        rw [gfMul_assoc _ x _ hE hx hpw2, gfPow_succ_mul x _ hx, hidx]
      rw [h3]
      have h4 : gfMul (gfMul c (gfPow x (p.length - (n + 1)))) (gfMul a x ^^^ b)
          = gfMul (gfMul c a) (gfPow x (p.length - n)) ^^^
            gfMul (gfMul c b) (gfPow x (p.length - (n + 1))) := by
        rw [gfMul_xor_left (gfMul c (gfPow x (p.length - (n + 1)))) (gfMul a x) b
          (gfMul_lt _ _) (gfMul_lt _ _) hb]
        congr 1
        · rw [gfMul_mul_mul_comm c (gfPow x (p.length - (n + 1))) a x hclt hpw2 ha hx]
          congr 1
          show gfPow x (p.length - (n + 1) + 1) = gfPow x (p.length - n)
          rw [hidx]
        · exact gfMul_right_comm c (gfPow x (p.length - (n + 1))) b hclt hpw2 hb
      rw [h4]
      ac_rfl
    · intro _
      by_cases hn0 : n = 0
      · subst hn0
        have hArep : A = List.replicate (p.length + 1) 0 := hA
        have hgd : A.getD 0 0 = 0 := by
          rw [hArep, getD_replicate_zero]
          simp
        rw [getD_set_ne _ _ _ (by omega) _ _, hA1, getD_set_self _ _ (by rw [ihlen]; omega) _ _,
          hgd, Nat.zero_xor, hc]
      · have hpos : 0 < n := by omega
        rw [getD_set_ne _ _ _ (by omega) _ _, hA1, getD_set_ne _ _ _ (by omega) _ _]
        exact ihhead hpos

theorem gfPolyMul_pair (p : List Nat) (a b : Nat) (hp : allLt p)
    (ha : a < 256) (hb : b < 256) :
    (gfPolyMul p [a, b]).length = p.length + 1 ∧ allLt (gfPolyMul p [a, b]) ∧
    (∀ x : Nat, x < 256 → polyEval (gfPolyMul p [a, b]) x
        = gfMul (polyEval p x) (gfMul a x ^^^ b)) ∧
    (0 < p.length → (gfPolyMul p [a, b]).getD 0 0 = gfMul (p.getD 0 0) a) := by
  have hgp : gfPolyMul p [a, b] = (List.range p.length).foldl (pairStep p a b)
      (List.replicate (p.length + 1) 0) := rfl
  rw [hgp]
  have h0 := gfPolyMul_pair_aux p a b 0 (by omega) ha hb hp p.length (Nat.le_refl _)
  refine ⟨h0.1, h0.2.1, ?_, h0.2.2.2⟩
  intro x hx
  have hx' := (gfPolyMul_pair_aux p a b x hx ha hb hp p.length (Nat.le_refl _)).2.2.1
  rw [List.take_length, Nat.sub_self] at hx'
  have h1 : gfMul (polyEval p x) (gfPow x 0) = polyEval p x := by
    show gfMul (polyEval p x) 1 = polyEval p x
    exact gfMul_one _ (polyEval_lt _ _ hp)
  rw [h1] at hx'
  exact hx'

/-! ### Properties of the generator polynomial -/

theorem GenerateGeneratorPoly_props (e : Nat) :
    (GenerateGeneratorPoly e).length = e + 1 ∧ allLt (GenerateGeneratorPoly e) ∧
    (GenerateGeneratorPoly e).getD 0 0 = 1 ∧
    ∀ i : Nat, i < e → polyEval (GenerateGeneratorPoly e) (expTable i) = 0 := by
  induction e with
  | zero =>
    refine ⟨rfl, ?_, rfl, by omega⟩
    intro ccc hcc
    have hg0 : GenerateGeneratorPoly 0 = [1] := rfl
    rw [hg0] at hcc
    simp at hcc
    omega
  | succ e ih =>
    obtain ⟨ihlen, ihlt, ihhead, ihroot⟩ := ih
    have hunf : GenerateGeneratorPoly (e + 1)
        = gfPolyMul (GenerateGeneratorPoly e) [1, expTable e] := by
      unfold GenerateGeneratorPoly
      rw [range_foldl_succ]
    rw [hunf]
    have hp2 := gfPolyMul_pair (GenerateGeneratorPoly e) 1 (expTable e) ihlt
      (by omega) (exp_lt e)
    refine ⟨by rw [hp2.1, ihlen], hp2.2.1, ?_, ?_⟩
    · have hh := hp2.2.2.2 (by rw [ihlen]; omega)
      rw [ihhead] at hh
      rw [hh]
      exact gfMul_one 1 (by omega)
    · intro i hi
      have hroot := hp2.2.2.1 (expTable i) (exp_lt i)
      rw [hroot]
      rcases Nat.lt_or_ge i e with hlt | hge
      · rw [ihroot i hlt, zero_gfMul]
      · have hie : i = e := by omega
        subst hie
        rw [one_gfMul _ (exp_lt i), Nat.xor_self, gfMul_zero]

/-! ### The polynomial division of `CalculateECCodewords` -/

theorem CalculateECCodewords_eq (data : List Nat) (e : Nat) :
    CalculateECCodewords data e =
      ((List.range data.length).foldl (divStep (GenerateGeneratorPoly e))
        (data ++ List.replicate e 0)).drop data.length := rfl

theorem divStep_eq (g : List Nat) (rem : List Nat) (i : Nat) :
    divStep g rem i =
      if rem.getD i 0 ≠ 0 then
        (List.range g.length).foldl (divInnerStep g (rem.getD i 0) i) rem
      else rem := rfl

theorem divInner_aux (g : List Nat) (coef r i : Nat) (hg : allLt g)
    (hcoef : coef < 256) (hr : r < 256) (rem : List Nat) (hrem : allLt rem)
    (hbound : i + g.length ≤ rem.length) :
    ∀ jn : Nat, jn ≤ g.length →
      (((List.range jn).foldl (divInnerStep g coef i) rem).length = rem.length) ∧
      allLt ((List.range jn).foldl (divInnerStep g coef i) rem) ∧
      (polyEval ((List.range jn).foldl (divInnerStep g coef i) rem) r
        = polyEval rem r ^^^
          gfMul coef (gfMul (polyEval (g.take jn) r)
            (gfPow r (rem.length - i - jn)))) ∧
      (∀ k : Nat, k < i →
        ((List.range jn).foldl (divInnerStep g coef i) rem).getD k 0
          = rem.getD k 0) ∧
      (0 < jn →
        ((List.range jn).foldl (divInnerStep g coef i) rem).getD i 0
          = rem.getD i 0 ^^^ gfMul (g.getD 0 0) coef) := by
  intro jn
  induction jn with
  | zero =>
    intro _
    refine ⟨rfl, hrem, ?_, fun k _ => rfl, by omega⟩
    have htk : polyEval (g.take 0) r = 0 := rfl
    rw [htk, zero_gfMul, gfMul_zero, Nat.xor_zero]
    rfl
  | succ jn ih =>
    intro hjn1
    have hjn : jn < g.length := hjn1
    obtain ⟨ihlen, ihlt, iheval, ihlow, ihat⟩ := ih (by omega)
    rw [range_foldl_succ (divInnerStep g coef i) rem jn] at *
    set B := (List.range jn).foldl (divInnerStep g coef i) rem with hB
    have hsetidx : i + jn < B.length := by rw [ihlen]; omega
    have hgj : g.getD jn 0 < 256 := getD_lt_of_allLt g jn hg hjn
    have hBeval : polyEval (divInnerStep g coef i B jn) r
        = polyEval B r ^^^
          gfMul (gfMul (g.getD jn 0) coef) (gfPow r (rem.length - 1 - (i + jn))) := by
      show polyEval (B.set (i + jn) (B.getD (i + jn) 0 ^^^ gfMul (g.getD jn 0) coef)) r = _
      have hset := polyEval_set B (i + jn) (gfMul (g.getD jn 0) coef) r hr ihlt
        (gfMul_lt _ _) hsetidx
      have hexp : B.length - 1 - (i + jn) = rem.length - 1 - (i + jn) := by
        rw [ihlen]
      rw [hset, hexp]
    refine ⟨?_, ?_, ?_, ?_, ?_⟩
    · show (B.set (i + jn) _).length = rem.length
      rw [List.length_set, ihlen]
    · exact allLt_set _ _ _ ihlt
        (xor_lt_256 _ _ (getD_lt_of_allLt B (i + jn) ihlt hsetidx) (gfMul_lt _ _))
    · rw [hBeval, iheval, polyEval_take_succ g jn r hjn]
      have hE : polyEval (g.take jn) r < 256 := polyEval_lt _ _ (allLt_take g jn hg)
      have hEx : gfMul (polyEval (g.take jn) r) r < 256 := gfMul_lt _ _
      have hpw2 : gfPow r (rem.length - i - (jn + 1)) < 256 := gfPow_lt _ _
      have hidx : rem.length - i - (jn + 1) + 1 = rem.length - i - jn := by omega
      have hidx2 : rem.length - 1 - (i + jn) = rem.length - i - (jn + 1) := by omega
      rw [gfMul_xor_right (gfMul (polyEval (g.take jn) r) r) (g.getD jn 0)
        (gfPow r (rem.length - i - (jn + 1))) hEx hgj hpw2]
      rw [gfMul_xor_left coef (gfMul (gfMul (polyEval (g.take jn) r) r)
          (gfPow r (rem.length - i - (jn + 1))))
          (gfMul (g.getD jn 0) (gfPow r (rem.length - i - (jn + 1))))
          hcoef (gfMul_lt _ _) (gfMul_lt _ _)]
      have h3 : gfMul (gfMul (polyEval (g.take jn) r) r)
          (gfPow r (rem.length - i - (jn + 1)))
          = gfMul (polyEval (g.take jn) r) (gfPow r (rem.length - i - jn)) := by
        rw [gfMul_assoc _ r _ hE hr hpw2, gfPow_succ_mul r _ hr, hidx]
      rw [h3]
      have h4 : gfMul coef (gfMul (g.getD jn 0)
          (gfPow r (rem.length - i - (jn + 1))))
          = gfMul (gfMul (g.getD jn 0) coef) (gfPow r (rem.length - 1 - (i + jn))) := by
        rw [← gfMul_assoc coef (g.getD jn 0) _ hcoef hgj hpw2,
          gfMul_comm coef (g.getD jn 0), hidx2]
      rw [h4]
      ac_rfl
    · intro k hk
      show (B.set (i + jn) _).getD k 0 = rem.getD k 0
      rw [getD_set_ne _ _ _ (by omega) _ _]
      exact ihlow k hk
    · intro _
      show (B.set (i + jn) _).getD i 0 = rem.getD i 0 ^^^ gfMul (g.getD 0 0) coef
      rcases Nat.eq_zero_or_pos jn with hj0 | hjpos
      · subst hj0
        have hBrem : B = rem := hB
        rw [Nat.add_zero]
        rw [getD_set_self _ _ (by rw [ihlen]; omega) _ _, hBrem]
      · rw [getD_set_ne _ _ _ (by omega) _ _]
        exact ihat hjpos

theorem divOuter_aux (data : List Nat) (e : Nat) (hd : allLt data) (r : Nat)
    (hr : r < 256) :
    ∀ nn : Nat, nn ≤ data.length →
      (((List.range nn).foldl (divStep (GenerateGeneratorPoly e))
        (data ++ List.replicate e 0)).length = data.length + e) ∧
      allLt ((List.range nn).foldl (divStep (GenerateGeneratorPoly e))
        (data ++ List.replicate e 0)) ∧
      (polyEval (GenerateGeneratorPoly e) r = 0 →
        polyEval ((List.range nn).foldl (divStep (GenerateGeneratorPoly e))
          (data ++ List.replicate e 0)) r
          = polyEval (data ++ List.replicate e 0) r) ∧
      (∀ k : Nat, k < nn →
        ((List.range nn).foldl (divStep (GenerateGeneratorPoly e))
          (data ++ List.replicate e 0)).getD k 0 = 0) := by
  have hgen := GenerateGeneratorPoly_props e
  obtain ⟨hglen, hglt, hghead, _⟩ := hgen
  intro nn
  induction nn with
  | zero =>
    intro _
    refine ⟨by simp, allLt_append _ _ hd (allLt_replicate_zero _), fun _ => rfl,
      by omega⟩
  | succ nn ih =>
    intro hn1
    have hn : nn < data.length := hn1
    obtain ⟨ihlen, ihlt, iheval, ihzero⟩ := ih (by omega)
    rw [range_foldl_succ (divStep (GenerateGeneratorPoly e))
      (data ++ List.replicate e 0) nn] at *
    set R := (List.range nn).foldl (divStep (GenerateGeneratorPoly e))
      (data ++ List.replicate e 0) with hR
    rw [divStep_eq]
    have hcf : R.getD nn 0 < 256 := getD_lt_of_allLt R nn ihlt (by rw [ihlen]; omega)
    have hbound : nn + (GenerateGeneratorPoly e).length ≤ R.length := by
      rw [hglen, ihlen]
      omega
    by_cases hcf0 : R.getD nn 0 ≠ 0
    · rw [if_pos hcf0]
      have hinner := divInner_aux (GenerateGeneratorPoly e) (R.getD nn 0) r nn
        hglt hcf hr R ihlt hbound (GenerateGeneratorPoly e).length (Nat.le_refl _)
      obtain ⟨blen, blt, beval, blow, bat⟩ := hinner
      refine ⟨by rw [blen, ihlen], blt, ?_, ?_⟩
      · intro hroot
        rw [beval, List.take_length, hroot, zero_gfMul, gfMul_zero, Nat.xor_zero]
        exact iheval hroot
      · intro k hk
        rcases Nat.lt_or_ge k nn with hklt | hkge
        · rw [blow k hklt]
          exact ihzero k hklt
        · have hkeq : k = nn := by omega
          subst hkeq
          rw [bat (by rw [hglen]; omega), hghead,
            one_gfMul _ hcf, Nat.xor_self]
    · rw [if_neg hcf0]
      refine ⟨ihlen, ihlt, iheval, ?_⟩
      intro k hk
      rcases Nat.lt_or_ge k nn with hklt | hkge
      · exact ihzero k hklt
      · have hkeq : k = nn := by omega
        subst hkeq
        omega

/-! ### Reed–Solomon encoding: syndromes of `data ++ EC` vanish -/

theorem CalculateEC_length (data : List Nat) (e : Nat) (hd : allLt data) :
    (CalculateECCodewords data e).length = e ∧
      allLt (CalculateECCodewords data e) := by
  have h := divOuter_aux data e hd 0 (by omega) data.length (Nat.le_refl _)
  rw [CalculateECCodewords_eq]
  constructor
  · rw [List.length_drop, h.1]
    omega
  · exact allLt_drop _ _ h.2.1

theorem getD_take_lt (l : List Nat) (n k d : Nat) (hk : k < n) :
    (l.take n).getD k d = l.getD k d := by
  simp [List.getD_eq_getElem?_getD, List.getElem?_take_of_lt hk]

theorem CalculateEC_syndrome (data : List Nat) (e : Nat) (hd : allLt data)
    (r : Nat) (hr : r < 256)
    (hroot : polyEval (GenerateGeneratorPoly e) r = 0) :
    polyEval (data ++ CalculateECCodewords data e) r = 0 := by
  have hall := divOuter_aux data e hd r hr data.length (Nat.le_refl _)
  set F := (List.range data.length).foldl (divStep (GenerateGeneratorPoly e))
    (data ++ List.replicate e 0) with hF
  obtain ⟨hlen, hlt, heval, hzero⟩ := hall
  have hrem0 : polyEval (data ++ List.replicate e 0) r
      = gfMul (polyEval data r) (gfPow r e) := by
    rw [polyEval_append_eval data _ r hr hd (allLt_replicate_zero e),
      polyEval_replicate_zero, Nat.xor_zero, List.length_replicate]
  have hFeval : polyEval F r = gfMul (polyEval data r) (gfPow r e) := by
    rw [heval hroot, hrem0]
  have htake0 : polyEval (F.take data.length) r = 0 := by
    apply polyEval_zero_entries
    intro k hk
    rw [List.length_take, hlen] at hk
    have hklt : k < data.length := by omega
    rw [getD_take_lt F data.length k 0 hklt]
    exact hzero k hklt
  have hdroplen : (F.drop data.length).length = e := by
    rw [List.length_drop, hlen]
    omega
  have hevalF2 : polyEval F r = polyEval (F.drop data.length) r := by
    conv_lhs => rw [← List.take_append_drop data.length F]
    rw [polyEval_append_eval _ _ r hr (allLt_take _ _ hlt) (allLt_drop _ _ hlt),
      htake0, zero_gfMul, Nat.zero_xor]
  have hEC : polyEval (CalculateECCodewords data e) r
      = gfMul (polyEval data r) (gfPow r e) := by
    rw [CalculateECCodewords_eq, ← hF, ← hevalF2, hFeval]
  have hbasic := CalculateEC_length data e hd
  rw [polyEval_append_eval data _ r hr hd hbasic.2, hbasic.1, hEC, Nat.xor_self]

theorem rsDecode_of_syndromes (block : List Nat) (e : Nat)
    (hs : ∀ i : Nat, i < e → polyEval block (expTable i) = 0) :
    rsDecode block e = some (block.take (block.length - e)) := by
  have hcond : (List.range e).all
      (fun i => decide (polyEval block (expTable i) = 0)) = true := by
    rw [List.all_eq_true]
    intro i hi
    rw [decide_eq_true_eq]
    exact hs i (List.mem_range.mp hi)
  simp only [rsDecode, hcond]
  rfl

/-! ## Claim theorems -/

/-- Claim C1: Reed–Solomon encoding is systematic and error-free decode is a
no-op.  For every sequence of data codewords (each a byte) and every EC
length in 2..68, the block `data ++ CalculateECCodewords data e`, read as a
GF(256) polynomial, evaluates to 0 at every root `expTable i` for `i < e`
(all syndromes vanish), and the zero-error decoder returns `data`
unchanged. -/
theorem C1_rs_systematic (data : List Nat) (hdata : allLt data) (e : Nat)
    (he2 : 2 ≤ e) (he68 : e ≤ 68) :
    (∀ i : Nat, i < e →
      polyEval (data ++ CalculateECCodewords data e) (expTable i) = 0) ∧
    rsDecode (data ++ CalculateECCodewords data e) e = some data := by
  have hroots := (GenerateGeneratorPoly_props e).2.2.2
  have hsyn : ∀ i : Nat, i < e →
      polyEval (data ++ CalculateECCodewords data e) (expTable i) = 0 :=
    fun i hi =>
      CalculateEC_syndrome data e hdata (expTable i) (exp_lt i) (hroots i hi)
  refine ⟨hsyn, ?_⟩
  rw [rsDecode_of_syndromes _ e hsyn]
  congr 1
  have hlen : (CalculateECCodewords data e).length = e :=
    (CalculateEC_length data e hdata).1
  rw [List.length_append, hlen]
  have hd2 : data.length + e - e = data.length := by omega
  rw [hd2]
  exact List.take_left data _

/-- Witness for C1 at the concrete block `[10, 20, 30]` with 5 EC
codewords. -/
theorem C1_rs_systematic_witness :
    allLt [10, 20, 30] ∧ 2 ≤ 5 ∧ 5 ≤ 68 ∧
    ((∀ i : Nat, i < 5 →
        polyEval ([10, 20, 30] ++ CalculateECCodewords [10, 20, 30] 5)
          (expTable i) = 0) ∧
      rsDecode ([10, 20, 30] ++ CalculateECCodewords [10, 20, 30] 5) 5
        = some [10, 20, 30]) := by
  have h := C1_rs_systematic [10, 20, 30] (by unfold allLt; decide) 5
    (by omega) (by omega)
  exact ⟨by unfold allLt; decide, by omega, by omega, h⟩

/-! ### Concrete evaluation of the version-3 round trip.

Each pipeline stage of the encoder and of the decoder is evaluated to a
literal on its own; the stage results are then glued by congruence, so
that no stage is ever recomputed. -/

theorem buildDataBits_contentC3 :
    buildDataBits contentC3 (versionTable 3 1) = bdBitsC3 := by decide!

theorem bitsToCodewords_bdBitsC3 : bitsToCodewords bdBitsC3 = dataC3 := by
  decide!

theorem CalculateEC_dataC3 : CalculateECCodewords dataC3 15 = ecC3 := by
  decide!

theorem buildFunctionPatterns_29 :
    buildFunctionPatterns 29 3 = (fpModC3, isfC3) := by decide!

theorem placeData_cwC3 : placeData 29 fpModC3 isfC3 cwC3 = pdModC3 := by
  decide!

theorem placeFormat_pdModC3 :
    placeFormat 29 pdModC3 (calculateBCHFormat 8) = gridC3 := by decide!

theorem msgC3_eq :
    assembleMessage (bitsToCodewords (buildDataBits contentC3
      (versionTable 3 1))) 15 = cwC3 :=
  calc assembleMessage (bitsToCodewords (buildDataBits contentC3
        (versionTable 3 1))) 15
      = assembleMessage (bitsToCodewords bdBitsC3) 15 :=
        congrArg (fun b => assembleMessage (bitsToCodewords b) 15)
          buildDataBits_contentC3
    _ = assembleMessage dataC3 15 :=
        congrArg (fun c => assembleMessage c 15) bitsToCodewords_bdBitsC3
    _ = dataC3 ++ CalculateECCodewords dataC3 15 := rfl
    _ = dataC3 ++ ecC3 := congrArg (dataC3 ++ ·) CalculateEC_dataC3
    _ = cwC3 := by decide

theorem modulesC3_eq :
    buildModules 29 3 1 cwC3 (fpModC3, isfC3) = gridC3 :=
  calc buildModules 29 3 1 cwC3 (fpModC3, isfC3)
      = placeFormat 29 (placeData 29 fpModC3 isfC3 cwC3)
          (calculateBCHFormat 8) := rfl
    _ = placeFormat 29 pdModC3 (calculateBCHFormat 8) :=
        congrArg (fun g => placeFormat 29 g (calculateBCHFormat 8))
          placeData_cwC3
    _ = gridC3 := placeFormat_pdModC3

theorem NewQRCode_contentC3 : NewQRCode contentC3 LevelL = some qrC3 :=
  calc NewQRCode contentC3 LevelL
      = some (QRCode.mk 3 1 29 (buildModules 29 3 1
          (assembleMessage (bitsToCodewords (buildDataBits contentC3
            (versionTable 3 1))) 15)
          (buildFunctionPatterns 29 3))) := rfl
    _ = some (QRCode.mk 3 1 29 (buildModules 29 3 1 cwC3
          (buildFunctionPatterns 29 3))) :=
        congrArg (fun msg => some (QRCode.mk 3 1 29 (buildModules 29 3 1 msg
          (buildFunctionPatterns 29 3)))) msgC3_eq
    _ = some (QRCode.mk 3 1 29 (buildModules 29 3 1 cwC3
          (fpModC3, isfC3))) :=
        congrArg (fun st => some (QRCode.mk 3 1 29 (buildModules 29 3 1 cwC3
          st))) buildFunctionPatterns_29
    _ = some (QRCode.mk 3 1 29 gridC3) :=
        congrArg (fun g => some (QRCode.mk 3 1 29 g)) modulesC3_eq
    _ = some qrC3 := rfl

theorem readDataBits_gridC3 : readDataBits 29 isfC3 gridC3 = bitsC3 := by
  decide!

theorem take_bitsC3 : bitsC3.take 560 = bitsTakeC3 := by decide!

theorem bitsToCodewords_btC3 : bitsToCodewords bitsTakeC3 = cwC3 := by decide!

theorem bitsToCodewords_bitsC3 : bitsToCodewords (bitsC3.take 560) = cwC3 :=
  Eq.trans (congrArg bitsToCodewords take_bitsC3) bitsToCodewords_btC3

theorem rsDecode_cwC3 : rsDecode cwC3 15 = some dataC3 := by decide!

theorem parseByteSegment_dataC3 : parseByteSegment dataC3 = some contentC3 := by
  decide!

theorem decodeFormat_gridC3 : decodeFormat gridC3 29 = some 8 := by decide!

theorem Decode_eq_dispatch (m : List (List Bool)) (h : m.length = 29) :
    Decode m = decodeDispatch m 29 (decodeFormat m 29) := by
  show (if m.length < 21 ∨ (m.length - 21) % 4 ≠ 0 then none
        else decodeDispatch m m.length (decodeFormat m m.length))
      = decodeDispatch m 29 (decodeFormat m 29)
  rw [h, if_neg (by decide)]

theorem decodeDispatch_some (m : List (List Bool)) (fd : Nat) :
    decodeDispatch m 29 (some fd) = decodeWithFormat m 29 fd := rfl

theorem decodeWithFormat8 (m : List (List Bool))
    (p : List (List Bool) × List (List Bool))
    (hp : buildFunctionPatterns 29 3 = p) :
    decodeWithFormat m 29 8
      = decodeCodewords m 29 (versionTable 3 1) p.2 := by
  show (if (8 : Nat) &&& 7 ≠ 0 then none
        else if (versionTable ((29 - 21) / 4 + 1) (8 >>> 3)).TotalCodewords = 0
          then none
        else decodeCodewords m 29 (versionTable ((29 - 21) / 4 + 1) (8 >>> 3))
          (buildFunctionPatterns 29 ((29 - 21) / 4 + 1)).2)
      = decodeCodewords m 29 (versionTable 3 1) p.2
  rw [if_neg (by decide), if_neg (by decide),
    show ((29 - 21) / 4 + 1 : Nat) = 3 from by decide,
    show ((8 : Nat) >>> 3) = 1 from by decide, hp]

theorem decodeCodewords_open (m : List (List Bool)) (vI : VersionInfo)
    (isF : List (List Bool)) :
    decodeCodewords m 29 vI isF
      = rsParse (rsDecode (bitsToCodewords
          ((readDataBits 29 isF m).take (vI.TotalCodewords * 8)))
          vI.ECCodewords) := rfl

theorem rsParse_some (d : List Nat) :
    rsParse (some d) = parseByteSegment d := by
  simp only [rsParse]

theorem Decode_gridC3 : Decode gridC3 = some contentC3 :=
  calc Decode gridC3
      = decodeDispatch gridC3 29 (decodeFormat gridC3 29) :=
        Decode_eq_dispatch gridC3 rfl
    _ = decodeDispatch gridC3 29 (some 8) :=
        congrArg (decodeDispatch gridC3 29) decodeFormat_gridC3
    _ = decodeWithFormat gridC3 29 8 := decodeDispatch_some gridC3 8
    _ = decodeCodewords gridC3 29 (versionTable 3 1) isfC3 :=
        decodeWithFormat8 gridC3 (fpModC3, isfC3) buildFunctionPatterns_29
    _ = rsParse (rsDecode (bitsToCodewords
          ((readDataBits 29 isfC3 gridC3).take 560)) 15) := by
        rw [decodeCodewords_open gridC3 (versionTable 3 1) isfC3,
          show (versionTable 3 1).TotalCodewords * 8 = 560 from by decide,
          show (versionTable 3 1).ECCodewords = 15 from by decide]
    _ = rsParse (rsDecode (bitsToCodewords (bitsC3.take 560)) 15) :=
        congrArg (fun (b : List Bool) => rsParse (rsDecode (bitsToCodewords (b.take 560)) 15))
          readDataBits_gridC3
    _ = rsParse (rsDecode cwC3 15) :=
        congrArg (fun c => rsParse (rsDecode c 15)) bitsToCodewords_bitsC3
    _ = rsParse (some dataC3) := congrArg rsParse rsDecode_cwC3
    _ = parseByteSegment dataC3 := rsParse_some dataC3
    _ = some contentC3 := parseByteSegment_dataC3

/-- Claim C3 (counterexample): encoding the test content
"This is a longer string for V2 QR Code!!" at level L does not select
version 2 — the content is 40 bytes and version 2-L holds only 34 data
codewords (32 content bytes), so the code selects version 3. -/
theorem C3_counterexample :
    (NewQRCode contentC3 LevelL).map QRCode.Version ≠ some 2 := by
  have h1 : (NewQRCode contentC3 LevelL).map QRCode.Version = some 3 :=
    Eq.trans (congrArg (Option.map QRCode.Version) NewQRCode_contentC3) rfl
  rw [h1]
  decide

/-- Claim C3 (amended): encoding the 40-byte test content at level L
selects version 3, and decoding the resulting symbol returns the content
exactly. -/
theorem C3_roundtrip :
    (NewQRCode contentC3 LevelL).map QRCode.Version = some 3 ∧
    (NewQRCode contentC3 LevelL).bind (fun q => Decode q.Modules)
      = some contentC3 :=
  have hbind : ∀ q : QRCode,
      (some q).bind (fun q2 => Decode q2.Modules) = Decode q.Modules :=
    fun _ => rfl
  ⟨Eq.trans (congrArg (Option.map QRCode.Version) NewQRCode_contentC3) rfl,
   Eq.trans
     (congrArg (fun (o : Option QRCode) => o.bind (fun q => Decode q.Modules)) NewQRCode_contentC3)
     (Eq.trans (hbind qrC3)
       (Eq.trans
         (congrArg Decode (rfl : qrC3.Modules = gridC3))
         Decode_gridC3))⟩

/-! ### Concrete evaluation of the level-M dark-module scenario -/

theorem buildDataBits_C4 : buildDataBits [65] (versionTable 1 0) = bdBitsC4 := by
  decide!

theorem bitsToCodewords_C4 : bitsToCodewords bdBitsC4 = dataC4 := by decide!

theorem CalculateEC_dataC4 : CalculateECCodewords dataC4 10 = ecC4 := by
  decide!

theorem buildFunctionPatterns_21 :
    buildFunctionPatterns 21 1 = (fpModC4, isfC4) := by decide!

theorem placeData_cwC4 : placeData 21 fpModC4 isfC4 cwC4 = pdModC4 := by
  decide!

theorem placeFormat_pdModC4 :
    placeFormat 21 pdModC4 (calculateBCHFormat 0) = gridC4 := by decide!

theorem msgC4_eq :
    assembleMessage (bitsToCodewords (buildDataBits [65]
      (versionTable 1 0))) 10 = cwC4 :=
  calc assembleMessage (bitsToCodewords (buildDataBits [65]
        (versionTable 1 0))) 10
      = assembleMessage (bitsToCodewords bdBitsC4) 10 :=
        congrArg (fun b => assembleMessage (bitsToCodewords b) 10)
          buildDataBits_C4
    _ = assembleMessage dataC4 10 :=
        congrArg (fun c => assembleMessage c 10) bitsToCodewords_C4
    _ = dataC4 ++ CalculateECCodewords dataC4 10 := rfl
    _ = dataC4 ++ ecC4 := congrArg (dataC4 ++ ·) CalculateEC_dataC4
    _ = cwC4 := by decide

theorem modulesC4_eq : buildModules 21 1 0 cwC4 (fpModC4, isfC4) = gridC4 :=
  calc buildModules 21 1 0 cwC4 (fpModC4, isfC4)
      = placeFormat 21 (placeData 21 fpModC4 isfC4 cwC4)
          (calculateBCHFormat 0) := rfl
    _ = placeFormat 21 pdModC4 (calculateBCHFormat 0) :=
        congrArg (fun g => placeFormat 21 g (calculateBCHFormat 0))
          placeData_cwC4
    _ = gridC4 := placeFormat_pdModC4

theorem NewQRCode_AM : NewQRCode [65] LevelM = some qrC4 :=
  calc NewQRCode [65] LevelM
      = some (QRCode.mk 1 0 21 (buildModules 21 1 0
          (assembleMessage (bitsToCodewords (buildDataBits [65]
            (versionTable 1 0))) 10)
          (buildFunctionPatterns 21 1))) := rfl
    _ = some (QRCode.mk 1 0 21 (buildModules 21 1 0 cwC4
          (buildFunctionPatterns 21 1))) :=
        congrArg (fun msg => some (QRCode.mk 1 0 21 (buildModules 21 1 0 msg
          (buildFunctionPatterns 21 1)))) msgC4_eq
    _ = some (QRCode.mk 1 0 21 (buildModules 21 1 0 cwC4
          (fpModC4, isfC4))) :=
        congrArg (fun st => some (QRCode.mk 1 0 21 (buildModules 21 1 0 cwC4
          st))) buildFunctionPatterns_21
    _ = some (QRCode.mk 1 0 21 gridC4) :=
        congrArg (fun g => some (QRCode.mk 1 0 21 g)) modulesC4_eq
    _ = some qrC4 := rfl

/-- Claim C4 (refuted — code bug): the dark module at `(size - 8, 8)` is
not dark in every successful encode.  Counterexample: content `[65]`
("A") at level M encodes successfully, yet the final grid holds `false`
at `(size - 8, 8) = (13, 8)`: the second format-information copy
(main file line 446) writes format bit 8 over the dark module that
lines 285-287 had set, and for level M (format data 0, masked word
0x5412) that bit is 0. -/
theorem C4_dark_module :
    (NewQRCode [65] LevelM).map (fun q => gridGet q.Modules (q.Size - 8) 8)
      = some false :=
  Eq.trans
    (congrArg (Option.map (fun q => gridGet q.Modules (q.Size - 8) 8))
      NewQRCode_AM)
    (by decide)

/-- Claim C6: for every 5-bit format data, the BCH codeword produced by
`calculateBCHFormat` before the fixed 0x5412 mask is a 15-bit word whose
high 5 bits are the format data and whose remainder modulo the generator
0x537 over GF(2) is zero. -/
theorem C6_bch_format (fd : Nat) (h : fd < 32) :
    (calculateBCHFormat fd ^^^ 0x5412) >>> 10 = fd ∧
    calculateBCHFormat fd ^^^ 0x5412 < 32768 ∧
    bchRem15 (calculateBCHFormat fd ^^^ 0x5412) = 0 :=
  (by decide : ∀ fd2 : Nat, fd2 < 32 →
    (calculateBCHFormat fd2 ^^^ 0x5412) >>> 10 = fd2 ∧
    calculateBCHFormat fd2 ^^^ 0x5412 < 32768 ∧
    bchRem15 (calculateBCHFormat fd2 ^^^ 0x5412) = 0) fd h

theorem C6_bch_format_witness :
    8 < 32 ∧
    ((calculateBCHFormat 8 ^^^ 0x5412) >>> 10 = 8 ∧
      calculateBCHFormat 8 ^^^ 0x5412 < 32768 ∧
      bchRem15 (calculateBCHFormat 8 ^^^ 0x5412) = 0) :=
  ⟨by decide, C6_bch_format 8 (by decide)⟩

/-- Claim C7: `gfDiv x y` fails exactly when `y = 0`, and otherwise
returns the exact quotient: multiplying it back by `y` recovers `x`. -/
theorem C7_gfDiv (x y : Nat) (hx : x < 256) (hy : y < 256) :
    ((gfDiv x y).isNone ↔ y = 0) ∧
    (y ≠ 0 → gfMul ((gfDiv x y).getD 0) y = x) := by
  constructor
  · constructor
    · intro hn
      by_contra h0
      have hd : gfDiv x y = if x = 0 then some 0
          else some (expTable ((logTable x + 255 - logTable y) % 255)) := by
        unfold gfDiv
        rw [if_neg h0]
      rw [hd] at hn
      by_cases hx0 : x = 0 <;> simp [hx0] at hn
    · intro h0
      subst h0
      rfl
  · intro h0
    by_cases hx0 : x = 0
    · subst hx0
      have hd : gfDiv 0 y = some 0 := by
        unfold gfDiv
        rw [if_neg h0, if_pos rfl]
      rw [hd]
      show gfMul 0 y = 0
      exact zero_gfMul y
    · have hdiv : gfDiv x y
          = some (expTable ((logTable x + 255 - logTable y) % 255)) := by
        unfold gfDiv
        rw [if_neg h0, if_neg hx0]
      rw [hdiv]
      have ha : logTable x < 255 := log_lt x hx (Nat.pos_of_ne_zero hx0)
      have hb : logTable y < 255 := log_lt y hy (Nat.pos_of_ne_zero h0)
      have hk : (logTable x + 255 - logTable y) % 255 < 255 :=
        Nat.mod_lt _ (by omega)
      have he : 0 < expTable ((logTable x + 255 - logTable y) % 255) :=
        exp_pos _ hk
      show gfMul (expTable ((logTable x + 255 - logTable y) % 255)) y = x
      rw [gfMul_eq_exp _ y he (Nat.pos_of_ne_zero h0), log_exp _ hk]
      have harith : ((logTable x + 255 - logTable y) % 255 + logTable y) % 255
          = logTable x := by omega
      rw [harith]
      exact exp_log x hx (Nat.pos_of_ne_zero hx0)

theorem C7_gfDiv_witness :
    7 < 256 ∧ 3 < 256 ∧
    (((gfDiv 7 3).isNone ↔ 3 = 0) ∧
      (3 ≠ 0 → gfMul ((gfDiv 7 3).getD 0) 3 = 7)) :=
  ⟨by decide, by decide, C7_gfDiv 7 3 (by decide) (by decide)⟩

/-- Claim C8: encoding is deterministic — any two successful results of
`NewQRCode` on the same content and level agree in version, level, size
and grid contents (the committed mask id is the constant 0 on both, so
it agrees as well). -/
theorem C8_determinism (data : List Nat) (level : Nat) (q q2 : QRCode)
    (h : NewQRCode data level = some q) (h2 : NewQRCode data level = some q2) :
    q.Version = q2.Version ∧ q.Level = q2.Level ∧ q.Size = q2.Size ∧
    q.Modules = q2.Modules := by
  have hqq : q = q2 := Option.some.inj (h.symm.trans h2)
  subst hqq
  exact ⟨rfl, rfl, rfl, rfl⟩

theorem C8_determinism_witness :
    NewQRCode [65] LevelM = some qrC4 ∧
    (qrC4.Version = qrC4.Version ∧ qrC4.Level = qrC4.Level ∧
      qrC4.Size = qrC4.Size ∧ qrC4.Modules = qrC4.Modules) :=
  ⟨NewQRCode_AM,
   C8_determinism [65] LevelM qrC4 qrC4 NewQRCode_AM NewQRCode_AM⟩

/-- Claim C10: after table initialization, every `expTable` entry over
indices 0..254 is a nonzero byte, `logTable` inverts `expTable` there,
and `expTable` is injective on 0..254 (a bijection onto the 255 nonzero
field elements). -/
theorem C10_table_invariants (i j : Nat) (hi : i < 255) (hj : j < 255) :
    (0 < expTable i ∧ expTable i < 256) ∧ logTable (expTable i) = i ∧
    (expTable i = expTable j → i = j) :=
  ⟨⟨exp_pos i hi, exp_lt_of_lt i hi⟩, log_exp i hi,
   fun h => by rw [← log_exp i hi, h, log_exp j hj]⟩

theorem C10_table_invariants_witness :
    3 < 255 ∧ 5 < 255 ∧
    ((0 < expTable 3 ∧ expTable 3 < 256) ∧ logTable (expTable 3) = 3 ∧
      (expTable 3 = expTable 5 → 3 = 5)) :=
  ⟨by decide, by decide, C10_table_invariants 3 5 (by decide) (by decide)⟩

/-! ### Version selection (claims C2, C5) -/

theorem findSomeCons {α β : Type} (f : α → Option β) (a : α) (l : List α) :
    (a :: l).findSome? f
      = match f a with
        | some b => some b
        | none => l.findSome? f := rfl

theorem findSomeNil {α β : Type} (f : α → Option β) :
    ([] : List α).findSome? f = none := rfl

theorem findVersion_eq (level dataLen : Nat) :
    findVersion level dataLen =
      if fitOK dataLen level 1 then some (1, versionTable 1 level)
      else if fitOK dataLen level 2 then some (2, versionTable 2 level)
      else if fitOK dataLen level 3 then some (3, versionTable 3 level)
      else if fitOK dataLen level 4 then some (4, versionTable 4 level)
      else none := by
  have hstep : ∀ ver : Nat,
      (if 1 < (versionTable ver level).Blocks then none
       else if 4 + 8 + dataLen * 8 ≤
           ((versionTable ver level).TotalCodewords -
             (versionTable ver level).ECCodewords) * 8 then
         some (ver, versionTable ver level)
       else (none : Option (Nat × VersionInfo)))
      = if fitOK dataLen level ver then some (ver, versionTable ver level)
        else none := by
    intro ver
    by_cases hb : 1 < (versionTable ver level).Blocks
    · rw [if_pos hb, if_neg]
      intro hf
      exact hf.1 hb
    · rw [if_neg hb]
      by_cases hc : 4 + 8 + dataLen * 8 ≤
          ((versionTable ver level).TotalCodewords -
            (versionTable ver level).ECCodewords) * 8
      · rw [if_pos hc, if_pos (show fitOK dataLen level ver from And.intro hb hc)]
      · rw [if_neg hc, if_neg]
        intro hf
        exact hc hf.2
  by_cases f1 : fitOK dataLen level 1 <;>
    by_cases f2 : fitOK dataLen level 2 <;>
      by_cases f3 : fitOK dataLen level 3 <;>
        by_cases f4 : fitOK dataLen level 4 <;>
          simp [findVersion, findSomeCons, findSomeNil, hstep,
            f1, f2, f3, f4]

theorem findVersion_some_char (level dataLen v : Nat) (vInfo : VersionInfo)
    (h : findVersion level dataLen = some (v, vInfo)) :
    vInfo = versionTable v level ∧ fitOK dataLen level v ∧
    1 ≤ v ∧ v ≤ 4 ∧ ∀ w, 1 ≤ w → w < v → ¬ fitOK dataLen level w := by
  rw [findVersion_eq] at h
  by_cases f1 : fitOK dataLen level 1
  · rw [if_pos f1] at h
    obtain ⟨hv, hi⟩ := Prod.mk.inj (Option.some.inj h)
    subst hv
    subst hi
    exact ⟨rfl, f1, by omega, by omega,
      fun w hw1 hw2 => absurd hw2 (by omega)⟩
  · rw [if_neg f1] at h
    by_cases f2 : fitOK dataLen level 2
    · rw [if_pos f2] at h
      obtain ⟨hv, hi⟩ := Prod.mk.inj (Option.some.inj h)
      subst hv
      subst hi
      refine ⟨rfl, f2, by omega, by omega, ?_⟩
      intro w hw1 hw2
      have hw : w = 1 := by omega
      rw [hw]
      exact f1
    · rw [if_neg f2] at h
      by_cases f3 : fitOK dataLen level 3
      · rw [if_pos f3] at h
        obtain ⟨hv, hi⟩ := Prod.mk.inj (Option.some.inj h)
        subst hv
        subst hi
        refine ⟨rfl, f3, by omega, by omega, ?_⟩
        intro w hw1 hw2
        interval_cases w
        · exact f1
        · exact f2
      · rw [if_neg f3] at h
        by_cases f4 : fitOK dataLen level 4
        · rw [if_pos f4] at h
          obtain ⟨hv, hi⟩ := Prod.mk.inj (Option.some.inj h)
          subst hv
          subst hi
          refine ⟨rfl, f4, by omega, by omega, ?_⟩
          intro w hw1 hw2
          interval_cases w
          · exact f1
          · exact f2
          · exact f3
        · rw [if_neg f4] at h
          exact Option.noConfusion h

theorem findVersion_none_char (level dataLen : Nat) :
    findVersion level dataLen = none ↔
      ∀ w, 1 ≤ w → w ≤ 4 → ¬ fitOK dataLen level w := by
  rw [findVersion_eq]
  constructor
  · intro h w hw1 hw4
    by_cases f1 : fitOK dataLen level 1
    · rw [if_pos f1] at h
      exact Option.noConfusion h
    · rw [if_neg f1] at h
      by_cases f2 : fitOK dataLen level 2
      · rw [if_pos f2] at h
        exact Option.noConfusion h
      · rw [if_neg f2] at h
        by_cases f3 : fitOK dataLen level 3
        · rw [if_pos f3] at h
          exact Option.noConfusion h
        · rw [if_neg f3] at h
          by_cases f4 : fitOK dataLen level 4
          · rw [if_pos f4] at h
            exact Option.noConfusion h
          · rw [if_neg f4] at h
            interval_cases w
            · exact f1
            · exact f2
            · exact f3
            · exact f4
  · intro hall
    rw [if_neg (hall 1 (by omega) (by omega)),
      if_neg (hall 2 (by omega) (by omega)),
      if_neg (hall 3 (by omega) (by omega)),
      if_neg (hall 4 (by omega) (by omega))]

theorem NewQRCode_none_iff (data : List Nat) (level : Nat) :
    NewQRCode data level = none ↔ findVersion level data.length = none := by
  unfold NewQRCode
  cases hf : findVersion level data.length with
  | none => simp
  | some p =>
    obtain ⟨v, vi⟩ := p
    simp

theorem NewQRCode_version (data : List Nat) (level v : Nat)
    (vInfo : VersionInfo) (h : findVersion level data.length = some (v, vInfo)) :
    (NewQRCode data level).map QRCode.Version = some v := by
  unfold NewQRCode
  rw [h]
  rfl

/-- Claim C2 (counterexample to the spec wording): the scan stops at
version 4 and skips multi-block entries, so 43 content bytes at level M
fail even though the version-4 level-M entry (blocks = 2, skipped by the
scan) has enough data capacity — the spec instead promises a scan of
versions 1..40 failing only when version 40 is insufficient. -/
theorem C2_counterexample :
    NewQRCode (List.replicate 43 65) LevelM = none ∧
    4 + 8 + (List.replicate 43 65 : List Nat).length * 8 ≤
      ((versionTable 4 LevelM).TotalCodewords -
        (versionTable 4 LevelM).ECCodewords) * 8 := by
  constructor
  · decide
  · decide

/-- Claim C2 (amended): version selection scans versions 1..4 in
ascending order, skipping capacity entries with more than one block;
a successful encode picks the smallest version of 1..4 whose single-block
data capacity holds the 12 header bits plus payload
(`fitOK`), and the encode fails exactly when no version of 1..4 fits. -/
theorem C2_version_selection (level : Nat) (data : List Nat) :
    (NewQRCode data level = none ↔
      ∀ w, 1 ≤ w → w ≤ 4 → ¬ fitOK data.length level w) ∧
    ∀ v vInfo, findVersion level data.length = some (v, vInfo) →
      (NewQRCode data level).map QRCode.Version = some v ∧
      vInfo = versionTable v level ∧ fitOK data.length level v ∧
      1 ≤ v ∧ v ≤ 4 ∧ ∀ w, 1 ≤ w → w < v → ¬ fitOK data.length level w := by
  constructor
  · rw [NewQRCode_none_iff]
    exact findVersion_none_char level data.length
  · intro v vInfo h
    obtain ⟨h1, h2, h3, h4, h5⟩ := findVersion_some_char level data.length v vInfo h
    exact ⟨NewQRCode_version data level v vInfo h, h1, h2, h3, h4, h5⟩

/-! ### Padding exact fill (claim C5) -/

theorem bbPut_length (bits : List Bool) (num len : Nat) :
    (bbPut bits num len).length = bits.length + len := by
  simp [bbPut]

theorem foldl_bbPut_length (l : List Nat) (bs : List Bool) :
    (l.foldl (fun bs b => bbPut bs b 8) bs).length = bs.length + 8 * l.length := by
  induction l generalizing bs with
  | nil => simp
  | cons a t ih =>
    simp only [List.foldl_cons, ih, bbPut_length, List.length_cons]
    omega

theorem termStep_length (bits2 : List Bool) (cap : Nat) :
    (termStep bits2 cap).length
      = if bits2.length < cap then
          bits2.length
            + (if cap < bits2.length + 4 then cap - bits2.length else 4)
        else bits2.length := by
  unfold termStep
  by_cases h : bits2.length < cap
  · rw [if_pos h, if_pos h, bbPut_length]
  · rw [if_neg h, if_neg h]

theorem alignStep_length (bits3 : List Bool) :
    (alignStep bits3).length
      = if bits3.length % 8 ≠ 0 then bits3.length + (8 - bits3.length % 8)
        else bits3.length := by
  unfold alignStep
  by_cases h : bits3.length % 8 ≠ 0
  · rw [if_pos h, if_pos h, bbPut_length]
  · rw [if_neg h, if_neg h]

theorem padLoop_length (fuel : Nat) :
    ∀ (padIdx cap : Nat) (bits : List Bool),
      bits.length ≤ cap → (cap - bits.length) % 8 = 0 →
      cap ≤ bits.length + 8 * fuel →
      (padLoop fuel padIdx bits cap).length = cap := by
  induction fuel with
  | zero =>
    intro padIdx cap bits h1 h2 h3
    unfold padLoop
    omega
  | succ n ih =>
    intro padIdx cap bits h1 h2 h3
    unfold padLoop
    by_cases h : bits.length < cap
    · rw [if_pos h]
      have := ih ((padIdx + 1) % 2) cap
        (bbPut bits (padBytesList.getD padIdx 0) 8)
      rw [bbPut_length] at this
      exact this (by omega) (by omega) (by omega)
    · rw [if_neg h]
      omega

/-- Claim C5: for every successful version choice, the encoded data bit
stream — mode indicator, count, payload, terminator of at most 4 zero
bits truncated at capacity, zero bits to the byte boundary, then
alternating 0xEC / 0x11 pad bytes — fills the data-codeword capacity of
the chosen (version, level) exactly. -/
theorem C5_padding (data : List Nat) (level v : Nat) (vInfo : VersionInfo)
    (h : findVersion level data.length = some (v, vInfo)) :
    (buildDataBits data vInfo).length
      = (vInfo.TotalCodewords - vInfo.ECCodewords) * 8 := by
  obtain ⟨hvt, hfit, _, _, _⟩ := findVersion_some_char level data.length v vInfo h
  have hcap : 4 + 8 + data.length * 8 ≤
      (vInfo.TotalCodewords - vInfo.ECCodewords) * 8 := by
    rw [hvt]
    exact hfit.2
  unfold buildDataBits
  apply padLoop_length
  · -- length after align is at most the capacity
    rw [alignStep_length, termStep_length, foldl_bbPut_length, bbPut_length,
      bbPut_length]
    simp only [List.length_nil]
    have h8 : ((vInfo.TotalCodewords - vInfo.ECCodewords) * 8) % 8 = 0 :=
      Nat.mul_mod_left _ 8
    split_ifs <;> omega
  · -- the remaining gap is a multiple of 8
    rw [alignStep_length, termStep_length, foldl_bbPut_length, bbPut_length,
      bbPut_length]
    simp only [List.length_nil]
    have h8 : ((vInfo.TotalCodewords - vInfo.ECCodewords) * 8) % 8 = 0 :=
      Nat.mul_mod_left _ 8
    split_ifs <;> omega
  · -- the fuel suffices
    rw [alignStep_length, termStep_length, foldl_bbPut_length, bbPut_length,
      bbPut_length]
    simp only [List.length_nil]
    have h8 : ((vInfo.TotalCodewords - vInfo.ECCodewords) * 8) % 8 = 0 :=
      Nat.mul_mod_left _ 8
    split_ifs <;> omega

theorem C5_padding_witness :
    findVersion 1 (List.replicate 11 7 : List Nat).length
      = some (1, versionTable 1 1) ∧
    (buildDataBits (List.replicate 11 7) (versionTable 1 1)).length
      = ((versionTable 1 1).TotalCodewords
          - (versionTable 1 1).ECCodewords) * 8 :=
  ⟨by decide,
   C5_padding (List.replicate 11 7) 1 1 (versionTable 1 1) (by decide)⟩

/-! ### Rasterizer geometry (claim C9) -/

theorem setPix_length (pix : List Nat) (dim x y : Nat) :
    (setPix pix dim x y).length = pix.length := by
  unfold setPix
  split_ifs <;> simp

theorem foldl_length_inv {α : Type} (f : List Nat → α → List Nat)
    (hf : ∀ p a, (f p a).length = p.length) :
    ∀ (l : List α) (p : List Nat), (l.foldl f p).length = p.length := by
  intro l
  induction l with
  | nil => intro p; rfl
  | cons a t ih =>
    intro p
    rw [List.foldl_cons, ih, hf]

theorem fillSquare_length (pix : List Nat) (dim scale sx sy : Nat) :
    (fillSquare pix dim scale sx sy).length = pix.length := by
  unfold fillSquare
  apply foldl_length_inv
  intro p yy
  apply foldl_length_inv
  intro p2 x
  exact setPix_length p2 dim (sx + x) (sy + yy)

theorem setPix_getD (pix : List Nat) (dim x y i : Nat) :
    (setPix pix dim x y).getD i 0
      = if x < dim ∧ y < dim ∧ i = y * dim + x ∧ i < pix.length then 1
        else pix.getD i 0 := by
  unfold setPix
  by_cases hb : x < dim ∧ y < dim
  · rw [if_pos hb]
    by_cases hi : i = y * dim + x
    · subst hi
      by_cases hlen : y * dim + x < pix.length
      · rw [getD_set_self pix _ hlen 1 0,
          if_pos ⟨hb.1, hb.2, rfl, hlen⟩]
      · rw [if_neg (fun hc => hlen hc.2.2.2)]
        have le1 : (pix.set (y * dim + x) 1).length ≤ y * dim + x := by
          rw [List.length_set]
          omega
        have le2 : pix.length ≤ y * dim + x := by omega
        rw [List.getD_eq_getElem?_getD, List.getD_eq_getElem?_getD,
          List.getElem?_eq_none le1, List.getElem?_eq_none le2]
    · rw [getD_set_ne pix (y * dim + x) i (fun he => hi he.symm) 1 0,
        if_neg (fun hc => hi hc.2.2.1)]
  · rw [if_neg hb, if_neg (fun hc => hb ⟨hc.1, hc.2.1⟩)]

theorem index_inj (dim a b c d : Nat) (hb : b < dim) (hd : d < dim)
    (h : a * dim + b = c * dim + d) : a = c ∧ b = d := by
  have hdim : 0 < dim := by omega
  have e1 : (a * dim + b) / dim = a := by
    rw [Nat.mul_comm a dim, Nat.mul_add_div hdim, Nat.div_eq_of_lt hb,
      Nat.add_zero]
  have e2 : (c * dim + d) / dim = c := by
    rw [Nat.mul_comm c dim, Nat.mul_add_div hdim, Nat.div_eq_of_lt hd,
      Nat.add_zero]
  have m1 : (a * dim + b) % dim = b := by
    rw [Nat.mul_comm a dim, Nat.mul_add_mod, Nat.mod_eq_of_lt hb]
  have m2 : (c * dim + d) % dim = d := by
    rw [Nat.mul_comm c dim, Nat.mul_add_mod, Nat.mod_eq_of_lt hd]
  constructor
  · rw [← e1, ← e2, h]
  · rw [← m1, ← m2, h]

theorem fillRow_getD (dim sx sy yy px py : Nat) (hpx : px < dim) :
    ∀ (n : Nat) (pix : List Nat),
      ((List.range n).foldl (fun p x => setPix p dim (sx + x) (sy + yy))
          pix).getD (py * dim + px) 0
        = if sy + yy = py ∧ sx ≤ px ∧ px < sx + n ∧
             py * dim + px < pix.length ∧ py < dim
          then 1 else pix.getD (py * dim + px) 0 := by
  intro n
  induction n with
  | zero =>
    intro pix
    rw [List.range_zero, List.foldl_nil, if_neg (fun hc => by omega)]
  | succ k ih =>
    intro pix
    rw [List.range_succ, List.foldl_append, List.foldl_cons, List.foldl_nil,
      setPix_getD]
    have hlen : ((List.range k).foldl
        (fun p x => setPix p dim (sx + x) (sy + yy)) pix).length
          = pix.length :=
      foldl_length_inv _ (fun p a => setPix_length p dim (sx + a) (sy + yy)) _ _
    rw [hlen, ih pix]
    by_cases hA : sx + k < dim ∧ sy + yy < dim ∧
        py * dim + px = (sy + yy) * dim + (sx + k) ∧
        py * dim + px < pix.length
    · obtain ⟨hA1, hA2, hA3, hA4⟩ := hA
      obtain ⟨hpy2, hpx2⟩ := index_inj dim py px (sy + yy) (sx + k) hpx hA1 hA3
      rw [if_pos ⟨hA1, hA2, hA3, hA4⟩,
        if_pos ⟨hpy2.symm, by omega, by omega, hA4, by omega⟩]
    · rw [if_neg hA]
      by_cases hB : sy + yy = py ∧ sx ≤ px ∧ px < sx + k ∧
          py * dim + px < pix.length ∧ py < dim
      · rw [if_pos hB,
          if_pos ⟨hB.1, hB.2.1, by omega, hB.2.2.2.1, hB.2.2.2.2⟩]
      · have hnc : ¬(sy + yy = py ∧ sx ≤ px ∧ px < sx + (k + 1) ∧
            py * dim + px < pix.length ∧ py < dim) := by
          intro hC
          obtain ⟨hc1, hc2, hc3, hc4, hc5⟩ := hC
          by_cases hpk : px < sx + k
          · exact hB ⟨hc1, hc2, hpk, hc4, hc5⟩
          · have hpxk : px = sx + k := by omega
            apply hA
            refine ⟨by omega, by omega, ?_, hc4⟩
            rw [← hc1, hpxk]
        rw [if_neg hB, if_neg hnc]

theorem fillSquareAux_getD (dim scale sx sy px py : Nat) (hpx : px < dim) :
    ∀ (n : Nat) (pix : List Nat),
      ((List.range n).foldl
          (fun p yy => (List.range scale).foldl
            (fun p2 x => setPix p2 dim (sx + x) (sy + yy)) p) pix).getD
         (py * dim + px) 0
        = if sx ≤ px ∧ px < sx + scale ∧ sy ≤ py ∧ py < sy + n ∧
             py * dim + px < pix.length ∧ py < dim
          then 1 else pix.getD (py * dim + px) 0 := by
  intro n
  induction n with
  | zero =>
    intro pix
    rw [List.range_zero, List.foldl_nil, if_neg (fun hc => by omega)]
  | succ k ih =>
    intro pix
    rw [List.range_succ, List.foldl_append, List.foldl_cons, List.foldl_nil,
      fillRow_getD dim sx sy k px py hpx scale]
    have hlen : ((List.range k).foldl
        (fun p yy => (List.range scale).foldl
          (fun p2 x => setPix p2 dim (sx + x) (sy + yy)) p) pix).length
          = pix.length :=
      foldl_length_inv _
        (fun p a => foldl_length_inv _
          (fun p2 x => setPix_length p2 dim (sx + x) (sy + a)) _ _) _ _
    rw [hlen, ih pix]
    by_cases hR : sy + k = py ∧ sx ≤ px ∧ px < sx + scale ∧
        py * dim + px < pix.length ∧ py < dim
    · rw [if_pos hR,
        if_pos ⟨hR.2.1, hR.2.2.1, by omega, by omega, hR.2.2.2.1,
          hR.2.2.2.2⟩]
    · rw [if_neg hR]
      by_cases hS : sx ≤ px ∧ px < sx + scale ∧ sy ≤ py ∧ py < sy + k ∧
          py * dim + px < pix.length ∧ py < dim
      · rw [if_pos hS,
          if_pos ⟨hS.1, hS.2.1, hS.2.2.1, by omega, hS.2.2.2.2.1,
            hS.2.2.2.2.2⟩]
      · have hnc : ¬(sx ≤ px ∧ px < sx + scale ∧ sy ≤ py ∧ py < sy + (k + 1) ∧
            py * dim + px < pix.length ∧ py < dim) := by
          intro hC
          obtain ⟨hc1, hc2, hc3, hc4, hc5, hc6⟩ := hC
          by_cases hpy : py < sy + k
          · exact hS ⟨hc1, hc2, hc3, hpy, hc5, hc6⟩
          · exact hR ⟨by omega, hc1, hc2, hc5, hc6⟩
        rw [if_neg hS, if_neg hnc]

theorem fillSquare_getD (pix : List Nat) (dim scale sx sy px py : Nat)
    (hpx : px < dim) :
    (fillSquare pix dim scale sx sy).getD (py * dim + px) 0
      = if sx ≤ px ∧ px < sx + scale ∧ sy ≤ py ∧ py < sy + scale ∧
           py * dim + px < pix.length ∧ py < dim
        then 1 else pix.getD (py * dim + px) 0 :=
  fillSquareAux_getD dim scale sx sy px py hpx scale pix

theorem colFold_getD (M : List (List Bool)) (dim scale r size px py : Nat)
    (hpx : px < dim) :
    ∀ (n : Nat) (pix : List Nat),
      ((List.range n).foldl
          (fun p c => if gridGet M r c then
              fillSquare p dim scale ((c + 4) * scale) ((r + 4) * scale)
            else p) pix).getD (py * dim + px) 0
        = if (∃ c, c < n ∧ gridGet M r c = true ∧
               (c + 4) * scale ≤ px ∧ px < (c + 4) * scale + scale) ∧
             (r + 4) * scale ≤ py ∧ py < (r + 4) * scale + scale ∧
             py * dim + px < pix.length ∧ py < dim
          then 1 else pix.getD (py * dim + px) 0 := by
  intro n
  induction n with
  | zero =>
    intro pix
    rw [List.range_zero, List.foldl_nil, if_neg]
    rintro ⟨⟨c, hc, _⟩, _⟩
    omega
  | succ k ih =>
    intro pix
    rw [List.range_succ, List.foldl_append, List.foldl_cons, List.foldl_nil]
    have hlen : ((List.range k).foldl
        (fun p c => if gridGet M r c then
            fillSquare p dim scale ((c + 4) * scale) ((r + 4) * scale)
          else p) pix).length = pix.length :=
      foldl_length_inv _
        (fun p c => by
          by_cases hg : gridGet M r c = true
          · rw [if_pos hg, fillSquare_length]
          · rw [if_neg hg]) _ _
    by_cases hg : gridGet M r k = true
    · rw [if_pos hg, fillSquare_getD _ dim scale _ _ px py hpx, hlen, ih pix]
      by_cases hS : (k + 4) * scale ≤ px ∧ px < (k + 4) * scale + scale ∧
          (r + 4) * scale ≤ py ∧ py < (r + 4) * scale + scale ∧
          py * dim + px < pix.length ∧ py < dim
      · rw [if_pos hS,
          if_pos ⟨⟨k, by omega, hg, hS.1, hS.2.1⟩, hS.2.2.1, hS.2.2.2.1,
            hS.2.2.2.2.1, hS.2.2.2.2.2⟩]
      · rw [if_neg hS]
        by_cases hE : (∃ c, c < k ∧ gridGet M r c = true ∧
            (c + 4) * scale ≤ px ∧ px < (c + 4) * scale + scale) ∧
            (r + 4) * scale ≤ py ∧ py < (r + 4) * scale + scale ∧
            py * dim + px < pix.length ∧ py < dim
        · obtain ⟨⟨c, hc, hgc, h1, h2⟩, h3, h4, h5, h6⟩ := hE
          rw [if_pos ⟨⟨c, hc, hgc, h1, h2⟩, h3, h4, h5, h6⟩,
            if_pos ⟨⟨c, by omega, hgc, h1, h2⟩, h3, h4, h5, h6⟩]
        · have hnc : ¬((∃ c, c < k + 1 ∧ gridGet M r c = true ∧
              (c + 4) * scale ≤ px ∧ px < (c + 4) * scale + scale) ∧
              (r + 4) * scale ≤ py ∧ py < (r + 4) * scale + scale ∧
              py * dim + px < pix.length ∧ py < dim) := by
            intro hC
            obtain ⟨⟨c, hc, hgc, h1, h2⟩, h3, h4, h5, h6⟩ := hC
            by_cases hck : c < k
            · exact hE ⟨⟨c, hck, hgc, h1, h2⟩, h3, h4, h5, h6⟩
            · have : c = k := by omega
              subst this
              exact hS ⟨h1, h2, h3, h4, h5, h6⟩
          rw [if_neg hE, if_neg hnc]
    · rw [if_neg hg, ih pix]
      have hiff : ((∃ c, c < k + 1 ∧ gridGet M r c = true ∧
            (c + 4) * scale ≤ px ∧ px < (c + 4) * scale + scale) ∧
            (r + 4) * scale ≤ py ∧ py < (r + 4) * scale + scale ∧
            py * dim + px < pix.length ∧ py < dim)
          ↔ ((∃ c, c < k ∧ gridGet M r c = true ∧
            (c + 4) * scale ≤ px ∧ px < (c + 4) * scale + scale) ∧
            (r + 4) * scale ≤ py ∧ py < (r + 4) * scale + scale ∧
            py * dim + px < pix.length ∧ py < dim) := by
        constructor
        · rintro ⟨⟨c, hc, hgc, h1, h2⟩, h3⟩
          refine ⟨⟨c, ?_, hgc, h1, h2⟩, h3⟩
          by_cases hck : c < k
          · exact hck
          · have : c = k := by omega
            subst this
            exact absurd hgc hg
        · rintro ⟨⟨c, hc, hgc, h1, h2⟩, h3⟩
          exact ⟨⟨c, by omega, hgc, h1, h2⟩, h3⟩
      rw [if_congr hiff rfl rfl]

theorem rowFold_getD (M : List (List Bool)) (dim scale size px py : Nat)
    (hpx : px < dim) :
    ∀ (n : Nat) (pix : List Nat),
      ((List.range n).foldl
          (fun p r => (List.range size).foldl
            (fun p2 c => if gridGet M r c then
                fillSquare p2 dim scale ((c + 4) * scale) ((r + 4) * scale)
              else p2) p) pix).getD (py * dim + px) 0
        = if (∃ r, r < n ∧ ∃ c, c < size ∧ gridGet M r c = true ∧
               (c + 4) * scale ≤ px ∧ px < (c + 4) * scale + scale ∧
               (r + 4) * scale ≤ py ∧ py < (r + 4) * scale + scale) ∧
             py * dim + px < pix.length ∧ py < dim
          then 1 else pix.getD (py * dim + px) 0 := by
  intro n
  induction n with
  | zero =>
    intro pix
    rw [List.range_zero, List.foldl_nil, if_neg]
    rintro ⟨⟨r, hr, _⟩, _⟩
    omega
  | succ k ih =>
    intro pix
    rw [List.range_succ, List.foldl_append, List.foldl_cons, List.foldl_nil,
      colFold_getD M dim scale k size px py hpx size]
    have hlen : ((List.range k).foldl
        (fun p r => (List.range size).foldl
          (fun p2 c => if gridGet M r c then
              fillSquare p2 dim scale ((c + 4) * scale) ((r + 4) * scale)
            else p2) p) pix).length = pix.length :=
      foldl_length_inv _
        (fun p r => foldl_length_inv _
          (fun p2 c => by
            by_cases hg : gridGet M r c = true
            · rw [if_pos hg, fillSquare_length]
            · rw [if_neg hg]) _ _) _ _
    rw [hlen, ih pix]
    by_cases hK : (∃ c, c < size ∧ gridGet M k c = true ∧
        (c + 4) * scale ≤ px ∧ px < (c + 4) * scale + scale) ∧
        (k + 4) * scale ≤ py ∧ py < (k + 4) * scale + scale ∧
        py * dim + px < pix.length ∧ py < dim
    · obtain ⟨⟨c, hc, hgc, h1, h2⟩, h3, h4, h5, h6⟩ := hK
      rw [if_pos ⟨⟨c, hc, hgc, h1, h2⟩, h3, h4, h5, h6⟩,
        if_pos ⟨⟨k, by omega, c, hc, hgc, h1, h2, h3, h4⟩, h5, h6⟩]
    · rw [if_neg hK]
      by_cases hE : (∃ r, r < k ∧ ∃ c, c < size ∧ gridGet M r c = true ∧
          (c + 4) * scale ≤ px ∧ px < (c + 4) * scale + scale ∧
          (r + 4) * scale ≤ py ∧ py < (r + 4) * scale + scale) ∧
          py * dim + px < pix.length ∧ py < dim
      · obtain ⟨⟨r, hr, c, hc, hgc, h1, h2, h3, h4⟩, h5, h6⟩ := hE
        rw [if_pos ⟨⟨r, hr, c, hc, hgc, h1, h2, h3, h4⟩, h5, h6⟩,
          if_pos ⟨⟨r, by omega, c, hc, hgc, h1, h2, h3, h4⟩, h5, h6⟩]
      · have hnc : ¬((∃ r, r < k + 1 ∧ ∃ c, c < size ∧
            gridGet M r c = true ∧
            (c + 4) * scale ≤ px ∧ px < (c + 4) * scale + scale ∧
            (r + 4) * scale ≤ py ∧ py < (r + 4) * scale + scale) ∧
            py * dim + px < pix.length ∧ py < dim) := by
          intro hC
          obtain ⟨⟨r, hr, c, hc, hgc, h1, h2, h3, h4⟩, h5, h6⟩ := hC
          by_cases hrk : r < k
          · exact hE ⟨⟨r, hrk, c, hc, hgc, h1, h2, h3, h4⟩, h5, h6⟩
          · have : r = k := by omega
            subst this
            exact hK ⟨⟨c, hc, hgc, h1, h2⟩, h3, h4, h5, h6⟩
        rw [if_neg hE, if_neg hnc]

/-- Claim C9: for every symbol and scale at least 1, the rendered pixel
buffer is a square of side `(Size + 8) * scale`, and a pixel is
foreground (1) exactly when a dark module's `scale × scale` square,
offset by the 4-module quiet zone, covers it; every other pixel is
background (0). -/
theorem C9_rasterizer (qr : QRCode) (scale : Nat) (hs : 1 ≤ scale) :
    (WritePNGPix qr scale).length
        = ((qr.Size + 8) * scale) * ((qr.Size + 8) * scale) ∧
    ∀ px py, px < (qr.Size + 8) * scale → py < (qr.Size + 8) * scale →
      getPix (WritePNGPix qr scale) ((qr.Size + 8) * scale) px py
        = if coveredByDark qr scale px py then 1 else 0 := by
  have hscale : (if scale < 1 then 1 else scale) = scale := by
    rw [if_neg]
    omega
  have hwp : WritePNGPix qr scale
      = (List.range qr.Size).foldl
          (fun pix r =>
            (List.range qr.Size).foldl
              (fun pix c =>
                if gridGet qr.Modules r c then
                  fillSquare pix ((qr.Size + 8) * scale) scale
                    ((c + 4) * scale) ((r + 4) * scale)
                else pix)
              pix)
          (List.replicate (((qr.Size + 8) * scale) * ((qr.Size + 8) * scale))
            0) := by
    unfold WritePNGPix
    simp only [hscale, show (2 * 4 : Nat) = 8 from rfl]
  constructor
  · rw [hwp]
    rw [foldl_length_inv _
      (fun p r => foldl_length_inv _
        (fun p2 c => by
          by_cases hg : gridGet qr.Modules r c = true
          · rw [if_pos hg, fillSquare_length]
          · rw [if_neg hg]) _ _) _ _]
    exact List.length_replicate _ _
  · intro px py hpx hpy
    have hidx : py * ((qr.Size + 8) * scale) + px
        < ((qr.Size + 8) * scale) * ((qr.Size + 8) * scale) := by
      calc py * ((qr.Size + 8) * scale) + px
          < py * ((qr.Size + 8) * scale) + (qr.Size + 8) * scale := by omega
        _ = (py + 1) * ((qr.Size + 8) * scale) := by ring
        _ ≤ ((qr.Size + 8) * scale) * ((qr.Size + 8) * scale) :=
            Nat.mul_le_mul_right _ (by omega)
    show (WritePNGPix qr scale).getD
        (py * ((qr.Size + 8) * scale) + px) 0 = _
    rw [hwp,
      rowFold_getD qr.Modules ((qr.Size + 8) * scale) scale qr.Size px py hpx
        qr.Size]
    have hiff : ((∃ r, r < qr.Size ∧ ∃ c, c < qr.Size ∧
          gridGet qr.Modules r c = true ∧
          (c + 4) * scale ≤ px ∧ px < (c + 4) * scale + scale ∧
          (r + 4) * scale ≤ py ∧ py < (r + 4) * scale + scale) ∧
        py * ((qr.Size + 8) * scale) + px
          < (List.replicate
              (((qr.Size + 8) * scale) * ((qr.Size + 8) * scale))
              (0 : Nat)).length ∧
        py < (qr.Size + 8) * scale)
        ↔ coveredByDark qr scale px py := by
      constructor
      · rintro ⟨hex, _, _⟩
        exact hex
      · intro hex
        refine ⟨hex, ?_, hpy⟩
        rw [List.length_replicate]
        exact hidx
    rw [if_congr hiff rfl rfl, getD_replicate_zero,
      if_pos hidx]

theorem C9_rasterizer_witness :
    1 ≤ 1 ∧
    ((WritePNGPix ⟨1, 1, 1, [[true]]⟩ 1).length = ((1 + 8) * 1) * ((1 + 8) * 1) ∧
      ∀ px py, px < (1 + 8) * 1 → py < (1 + 8) * 1 →
        getPix (WritePNGPix ⟨1, 1, 1, [[true]]⟩ 1) ((1 + 8) * 1) px py
          = if coveredByDark ⟨1, 1, 1, [[true]]⟩ 1 px py then 1 else 0) :=
  ⟨by decide, C9_rasterizer ⟨1, 1, 1, [[true]]⟩ 1 (by decide)⟩

end QRV
